import Mathlib

/-!
Verification of the register access and state-abstraction layer of the
unicorn emulator core (qemu/target/i386/unicorn.c and
qemu/target/sparc/unicorn.c), as a shallow embedding in Lean 4.

Machine integers are modelled as `Nat` with explicit reduction modulo
`2 ^ w` exactly where the C code truncates.  Caller buffers are modelled
as typed payloads (`RegVal`): the generic API hands the accessor a typed
buffer, and each case of the accessor reinterprets it at the width it
needs.  External collaborators that are declared but not defined in the
two source files (the width-check macro from uc_priv.h, the QEMU cpu
helpers, the segment legality pre-check, the rdmsr/wrmsr
micro-operations) are modelled from the specification at their interface
boundary; each such definition carries a doc comment saying so.
-/

namespace Unicorn

/-- Error codes of the access layer: success, the argument-validity error
(unknown identifier or size mismatch) and the permission error reported
by the segment legality pre-check. -/
inductive UcErr where
  | ok
  | arg
  | exception
deriving DecidableEq

/-- Execution modes relevant to this layer (UC_MODE_16 / UC_MODE_32 /
UC_MODE_64). -/
inductive UcMode where
  | m16
  | m32
  | m64
deriving DecidableEq

/-- Modelled from the spec: the width contract enforced by the
CHECK_REG_TYPE macro of uc_priv.h (the macro itself is not among the
source files).  The caller-declared size must equal the semantic width
of the identifier; an omitted size (NULL sizes array) is accepted as the
canonical width. -/
def sizeOk : Option Nat → Nat → Bool
  | none, _ => true
  | some s, w => s == w

end Unicorn

namespace SPARC

open Unicorn

/-- Register identifiers of the SPARC accessor that the two unicorn.c
switches distinguish: the four windows of eight 32-bit registers, the
program counter, and any other (unhandled) identifier. -/
inductive SparcReg where
  | G (i : Fin 8)
  | O (i : Fin 8)
  | L (i : Fin 8)
  | I (i : Fin 8)
  | PC
  | unk (n : Nat)
deriving DecidableEq

/-- The SPARC architectural state record (`CPUSPARCState`) restricted to
the fields the two source files touch: the eight global registers, the
current register window (`regwptr`, 24 entries: out, local, in), the
floating point registers and the two program counters.  All values are
32-bit. -/
structure CPUSPARCState where
  gregs : Nat → Nat
  regwptr : Nat → Nat
  fpr : Nat → Nat
  pc : Nat
  npc : Nat

/-- Width of the SPARC registers in this build (target_ulong is 32 bit). -/
def U32 : Nat := 2 ^ 32

/-- Single-register read accessor of qemu/target/sparc/unicorn.c.  The
result pairs the returned error code with the buffer content: `some v`
means the 4-byte copy into the caller buffer was performed.  Note that
the I0..I7 branch of the source performs the copy without invoking
CHECK_REG_TYPE and leaves `ret` at UC_ERR_ARG. -/
def reg_read (env : CPUSPARCState) (regid : SparcReg) (size : Option Nat) :
    UcErr × Option Nat :=
  match regid with
  | .G i => if sizeOk size 4 then (.ok, some (env.gregs i.val % U32)) else (.arg, none)
  | .O i => if sizeOk size 4 then (.ok, some (env.regwptr i.val % U32)) else (.arg, none)
  | .L i => if sizeOk size 4 then (.ok, some (env.regwptr (8 + i.val) % U32)) else (.arg, none)
  | .I i => (.arg, some (env.regwptr (16 + i.val) % U32))
  | .PC => if sizeOk size 4 then (.ok, some (env.pc % U32)) else (.arg, none)
  | .unk _ => (.arg, none)

/-- Single-register write accessor of qemu/target/sparc/unicorn.c.  A
write to the program counter also sets npc to the written value plus 4
(32-bit arithmetic). -/
def reg_write (env : CPUSPARCState) (regid : SparcReg) (v : Nat) (size : Option Nat) :
    UcErr × CPUSPARCState :=
  match regid with
  | .G i =>
    if sizeOk size 4 then
      (.ok, { env with gregs := Function.update env.gregs i.val (v % U32) })
    else (.arg, env)
  | .O i =>
    if sizeOk size 4 then
      (.ok, { env with regwptr := Function.update env.regwptr i.val (v % U32) })
    else (.arg, env)
  | .L i =>
    if sizeOk size 4 then
      (.ok, { env with regwptr := Function.update env.regwptr (8 + i.val) (v % U32) })
    else (.arg, env)
  | .I i =>
    if sizeOk size 4 then
      (.ok, { env with regwptr := Function.update env.regwptr (16 + i.val) (v % U32) })
    else (.arg, env)
  | .PC =>
    if sizeOk size 4 then
      (.ok, { env with pc := v % U32, npc := (v % U32 + 4) % U32 })
    else (.arg, env)
  | .unk _ => (.arg, env)

/-- The live SPARC engine handle: the CPU state plus the feedback channel
to the execution engine (quit_request and the count of
abandon-current-translated-unit requests raised through
break_translation_loop). -/
structure SparcUc where
  env : CPUSPARCState
  quit_request : Bool
  abort_requests : Nat

/-- Modelled from the spec: break_translation_loop raises one
execution-abort request to the owning engine. -/
def break_translation_loop (uc : SparcUc) : SparcUc :=
  { uc with abort_requests := uc.abort_requests + 1 }

/-- One element of a batch access: identifier, buffer value, declared
size (none when the sizes array is NULL). -/
def SparcItem := SparcReg × Nat × Option Nat

/-- Batch write entry point `sparc_reg_write`: applies the single-register
accessor in list order, stops at the first error, and raises the
PC-dirty feedback after each successful program-counter element. -/
def sparc_reg_write (uc : SparcUc) (items : List SparcItem) : UcErr × SparcUc :=
  match items with
  | [] => (.ok, uc)
  | (regid, v, s) :: rest =>
    match reg_write uc.env regid v s with
    | (.ok, env') =>
      let uc' := { uc with env := env' }
      if regid = .PC then
        sparc_reg_write (break_translation_loop { uc' with quit_request := true }) rest
      else
        sparc_reg_write uc' rest
    | (e, env') => (e, { uc with env := env' })

/-- Batch read entry point `sparc_reg_read` (live CPU): reads in list
order, stops at the first error. -/
def sparc_reg_read (uc : SparcUc) (items : List (SparcReg × Option Nat)) :
    UcErr × List Nat :=
  match items with
  | [] => (.ok, [])
  | (regid, s) :: rest =>
    match reg_read uc.env regid s with
    | (.ok, v) =>
      match sparc_reg_read uc rest with
      | (.ok, vs) => (.ok, v.getD 0 :: vs)
      | (e, vs) => (e, vs)
    | (e, _) => (e, [])

/-- Detached snapshot write entry point `sparc_context_reg_write`: the
same accessor over the snapshot record; it never touches the feedback
channel, so the raised-request count is zero by construction. -/
def sparc_context_reg_write (env : CPUSPARCState) (items : List SparcItem) :
    UcErr × CPUSPARCState × Nat :=
  match items with
  | [] => (.ok, env, 0)
  | (regid, v, s) :: rest =>
    match reg_write env regid v s with
    | (.ok, env') => sparc_context_reg_write env' rest
    | (e, env') => (e, env', 0)

/-- The engine set-PC operation `sparc_set_pc`: stores the address and
the address plus 4 into pc and npc (truncated to 32 bit). -/
def sparc_set_pc (env : CPUSPARCState) (address : Nat) : CPUSPARCState :=
  { env with pc := address % U32, npc := (address + 4) % U32 }

/-- The engine get-PC operation `sparc_get_pc`. -/
def sparc_get_pc (env : CPUSPARCState) : Nat :=
  env.pc

/-- Reset entry point `sparc_reg_reset`: zeroes the globals, the floating
point registers, the register window storage and both program
counters. -/
def sparc_reg_reset (_env : CPUSPARCState) : CPUSPARCState :=
  { gregs := fun _ => 0, regwptr := fun _ => 0, fpr := fun _ => 0, pc := 0, npc := 0 }

end SPARC

namespace X86

open Unicorn

/-- Truncation moduli of the C integer types involved. -/
def U8 : Nat := 2 ^ 8

def U16 : Nat := 2 ^ 16

def U32 : Nat := 2 ^ 32

def U64 : Nat := 2 ^ 64

/-- QEMU general-register indices into `env->regs`. -/
def R_EAX : Nat := 0

def R_ECX : Nat := 1

def R_EDX : Nat := 2

def R_EBX : Nat := 3

def R_ESP : Nat := 4

def R_EBP : Nat := 5

def R_ESI : Nat := 6

def R_EDI : Nat := 7

/-- QEMU segment indices into `env->segs`. -/
def R_ES : Nat := 0

def R_CS : Nat := 1

def R_SS : Nat := 2

def R_DS : Nat := 3

def R_FS : Nat := 4

def R_GS : Nat := 5

/-- Modelled from the spec: QEMU segment-descriptor flag bits (cpu.h is
not among the source files); the exact values are immaterial to the
claims, only that the reset path installs fixed flag words. -/
def DESC_P_MASK : Nat := 2 ^ 15

def DESC_S_MASK : Nat := 2 ^ 12

def DESC_CS_MASK : Nat := 2 ^ 11

def DESC_R_MASK : Nat := 2 ^ 9

def DESC_W_MASK : Nat := 2 ^ 9

def DESC_A_MASK : Nat := 2 ^ 8

/-- Flag word used for the non-CS segments in 16-bit reset and 16-bit
segment writes. -/
def X86_NON_CS_FLAGS : Nat := DESC_P_MASK ||| DESC_S_MASK ||| DESC_W_MASK ||| DESC_A_MASK

/-- Modelled from the spec: the extended-feature (long mode) bits of the
EFER model-specific register and the protected-mode bit of CR0. -/
def MSR_EFER_LME : Nat := 2 ^ 8

def MSR_EFER_LMA : Nat := 2 ^ 10

def CR0_PE_MASK : Nat := 1

/-- Modelled from the spec: hflags bits installed by reset for the wider
modes; exact values immaterial to the claims. -/
def HF_CS32_MASK : Nat := 2 ^ 4

def HF_SS32_MASK : Nat := 2 ^ 5

def HF_CS64_MASK : Nat := 2 ^ 15

def HF_ADDSEG_MASK : Nat := 2 ^ 6

def HF_LMA_MASK : Nat := 2 ^ 14

def HF_OSFXSR_MASK : Nat := 2 ^ 22

def CPUID_EXT2_LM : Nat := 2 ^ 29

def CC_OP_EFLAGS : Nat := 1

/-- One segment register / descriptor-table register: the four sub-fields
of QEMU SegmentCache. -/
structure SegReg where
  selector : Nat
  base : Nat
  limit : Nat
  flags : Nat
deriving DecidableEq

/-- One 80-bit floating point register, kept as the 64-bit mantissa and
the 16-bit sign/exponent word (the layout cpu_get_fp80 / cpu_set_fp80
translate to and from; both helpers are external, so the register is
modelled directly in this decomposed form). -/
structure FPReg where
  mant : Nat
  upper : Nat
deriving DecidableEq

/-- The x86 architectural state record (`CPUX86State`) restricted to the
fields the source file touches.  64-bit build (TARGET_X86_64), so the
general registers and eip are 64-bit slots.  The condition flags are
kept as one canonical value: cpu_compute_eflags and cpu_load_eflags (the
canonicalization routines, external to the source files) are modelled
from the spec as the identity read and decode of that value. -/
structure CPUX86State where
  regs : Nat → Nat
  eip : Nat
  eflags : Nat
  cc_op : Nat
  segs : Nat → SegReg
  cr : Nat → Nat
  dr : Nat → Nat
  fpregs : Nat → FPReg
  fpstt : Nat
  fpus : Nat
  fpuc : Nat
  fptags : Nat → Bool
  fpip : Nat
  fpcs : Nat
  fpdp : Nat
  fpds : Nat
  fpop : Nat
  mxcsr : Nat
  xmm_regs : Nat → Nat × Nat
  ymmh_regs : Nat → Nat × Nat
  opmask_regs : Nat → Nat
  zmmh_regs : Nat → Nat
  hi16_zmm_regs : Nat → Nat
  xmm_t0 : Nat
  mmx_t0 : Nat
  idt : SegReg
  gdt : SegReg
  ldt : SegReg
  tr : SegReg
  sysenter_cs : Nat
  sysenter_esp : Nat
  sysenter_eip : Nat
  efer : Nat
  star : Nat
  lstar : Nat
  cstar : Nat
  fmask : Nat
  kernelgsbase : Nat
  vm_hsave : Nat
  tsc : Nat
  tsc_adjust : Nat
  tsc_deadline : Nat
  mcg_status : Nat
  msr_ia32_misc_enable : Nat
  msr_ia32_feature_control : Nat
  msr_fixed_ctr_ctrl : Nat
  msr_global_ctrl : Nat
  msr_global_status : Nat
  msr_global_ovf_ctrl : Nat
  msr_fixed_counters : Nat → Nat
  msr_gp_counters : Nat → Nat
  msr_gp_evtsel : Nat → Nat
  hflags : Nat
  features_8000_0001_edx : Nat

/-- The typed caller buffer of one access: a scalar of up to 64 bits, an
80-bit floating point pair, a 128- or 256-bit vector, the four-field
descriptor tuple uc_x86_mmr, or the uc_x86_msr index/value pair. -/
structure RegVal where
  vI : Nat
  f80m : Nat
  f80e : Nat
  q0 : Nat
  q1 : Nat
  q2 : Nat
  q3 : Nat
  mmrSelector : Nat
  mmrBase : Nat
  mmrLimit : Nat
  mmrFlags : Nat
  msrRid : Nat
  msrValue : Nat
deriving DecidableEq

/-- The all-zero buffer. -/
def RegVal.zero : RegVal :=
  ⟨0, 0, 0, 0, 0, 0, 0, 0, 0, 0, 0, 0, 0⟩

/-- Scalar buffer. -/
def RegVal.i (n : Nat) : RegVal :=
  { RegVal.zero with vI := n }

/-- 80-bit floating point buffer (mantissa, sign/exponent word). -/
def RegVal.f80 (m e : Nat) : RegVal :=
  { RegVal.zero with f80m := m, f80e := e }

/-- 128-bit vector buffer. -/
def RegVal.u128 (a b : Nat) : RegVal :=
  { RegVal.zero with q0 := a, q1 := b }

/-- 256-bit vector buffer. -/
def RegVal.u256 (a b c d : Nat) : RegVal :=
  { RegVal.zero with q0 := a, q1 := b, q2 := c, q3 := d }

/-- uc_x86_mmr buffer. -/
def RegVal.mmr (sel base limit flags : Nat) : RegVal :=
  { RegVal.zero with mmrSelector := sel, mmrBase := base, mmrLimit := limit, mmrFlags := flags }

/-- uc_x86_msr buffer. -/
def RegVal.msr (rid v : Nat) : RegVal :=
  { RegVal.zero with msrRid := rid, msrValue := v }

/-- Byte widths used by CHECK_REG_TYPE in the x86 accessor; the widths of
the two composite buffer types are their C struct sizes. -/
def SZ_MMR : Nat := 24

def SZ_MSR : Nat := 16

/-- External collaborators consumed by the accessor and modelled from the
spec at their interface boundary: the segment legality pre-check
(uc_check_cpu_x86_load_seg, returns whether loading the selector into
the segment is legal under the current descriptor tables), and the
native rdmsr / wrmsr micro-operations (helper_rdmsr / helper_wrmsr,
side-effecting state transformers that communicate through the
general-purpose registers). -/
structure Externals where
  segCheck : Nat → Nat → Bool
  rdmsr : CPUX86State → CPUX86State
  wrmsr : CPUX86State → CPUX86State

/-- Sub-register write macro WRITE_BYTE_L of uc_priv.h, modelled from the
spec: replace the low byte of the slot, keep every other bit. -/
def WRITE_BYTE_L (x b : Nat) : Nat :=
  x / U8 * U8 + b % U8

/-- Sub-register write macro WRITE_BYTE_H, modelled from the spec:
replace byte 1 of the slot, keep every other bit. -/
def WRITE_BYTE_H (x b : Nat) : Nat :=
  x / U16 * U16 + b % U8 * U8 + x % U8

/-- Sub-register write macro WRITE_WORD, modelled from the spec: replace
the low 16 bits of the slot, keep every other bit. -/
def WRITE_WORD (x w : Nat) : Nat :=
  x / U16 * U16 + w % U16

/-- Sub-register write macro WRITE_DWORD, modelled from the spec: replace
the low 32 bits of the slot, keep every other bit. -/
def WRITE_DWORD (x w : Nat) : Nat :=
  x / U32 * U32 + w % U32

/-- Sub-register read macro READ_BYTE_L of uc_priv.h, modelled from the
spec. -/
def READ_BYTE_L (x : Nat) : Nat :=
  x % U8

/-- Sub-register read macro READ_BYTE_H, modelled from the spec. -/
def READ_BYTE_H (x : Nat) : Nat :=
  x % U16 / U8

/-- Sub-register read macro READ_WORD, modelled from the spec. -/
def READ_WORD (x : Nat) : Nat :=
  x % U16

/-- Sub-register read macro READ_DWORD, modelled from the spec. -/
def READ_DWORD (x : Nat) : Nat :=
  x % U32

/-- Sub-register read macro READ_QWORD, modelled from the spec. -/
def READ_QWORD (x : Nat) : Nat :=
  x % U64

/-- Modelled from the spec: cpu_x86_load_seg_cache installs the four
sub-fields of one segment register as one atomic unit. -/
def cpu_x86_load_seg_cache (env : CPUX86State) (seg selector base limit flags : Nat) :
    CPUX86State :=
  { env with segs := Function.update env.segs seg ⟨selector, base, limit, flags⟩ }

/-- Real-mode style segment load used by the 16-bit paths of the source:
selector, base = selector * 16, limit 0xffff, fixed non-CS flags. -/
def load_seg_16_helper (env : CPUX86State) (seg selector : Nat) : CPUX86State :=
  cpu_x86_load_seg_cache env seg selector (selector <<< 4) 0xffff X86_NON_CS_FLAGS

/-- Modelled from the spec: cpu_load_eflags decodes the supplied bits
into the internal condition representation — here the canonical flags
value itself. -/
def cpu_load_eflags (env : CPUX86State) (v : Nat) : CPUX86State :=
  { env with eflags := v }

/-- Modelled from the spec: cpu_compute_eflags canonicalizes the internal
condition representation into the architectural flags value. -/
def cpu_compute_eflags (env : CPUX86State) : Nat :=
  env.eflags

/-- Modelled from the spec: the side-effecting control-register update
routine for CR0; it latches the value (the mode-transition side effects
on hflags are outside the claims). -/
def cpu_x86_update_cr0 (env : CPUX86State) (v : Nat) : CPUX86State :=
  { env with cr := Function.update env.cr 0 v }

/-- Modelled from the spec: the side-effecting update routine for CR3. -/
def cpu_x86_update_cr3 (env : CPUX86State) (v : Nat) : CPUX86State :=
  { env with cr := Function.update env.cr 3 v }

/-- Modelled from the spec: the side-effecting update routine for CR4. -/
def cpu_x86_update_cr4 (env : CPUX86State) (v : Nat) : CPUX86State :=
  { env with cr := Function.update env.cr 4 v }

/-- Modelled from the spec: cpu_set_fpuc latches the floating point
control word. -/
def cpu_set_fpuc (env : CPUX86State) (v : Nat) : CPUX86State :=
  { env with fpuc := v }

/-- Modelled from the spec: cpu_set_mxcsr latches the SSE control/status
word. -/
def cpu_set_mxcsr (env : CPUX86State) (v : Nat) : CPUX86State :=
  { env with mxcsr := v }

/-- Modelled from the spec: cpu_x86_load_seg performs the protected-mode
segment load after a passing legality pre-check; the descriptor-cache
refill from the tables is elided, the selector is latched. -/
def cpu_x86_load_seg (env : CPUX86State) (seg selector : Nat) : CPUX86State :=
  { env with segs := Function.update env.segs seg ({ env.segs seg with selector := selector }) }

/-- MSR read `x86_msr_read`: borrow ECX to carry the index, run the
native rdmsr micro-operation, capture EDX:EAX as the 64-bit result, then
restore EAX, ECX and EDX to their pre-call values. -/
def x86_msr_read (ext : Externals) (env : CPUX86State) (rid : Nat) : CPUX86State × Nat :=
  let ecx := env.regs R_ECX
  let eax := env.regs R_EAX
  let edx := env.regs R_EDX
  let env1 := ext.rdmsr { env with regs := Function.update env.regs R_ECX rid }
  let value := env1.regs R_EAX % U32 + env1.regs R_EDX % U32 * U32
  let r2 := Function.update (Function.update (Function.update env1.regs R_EAX eax) R_ECX ecx) R_EDX edx
  ({ env1 with regs := r2 }, value)

/-- MSR write `x86_msr_write`: borrow ECX for the index and EDX:EAX for
the value, run the native wrmsr micro-operation, then restore ECX, EAX
and EDX to their pre-call values. -/
def x86_msr_write (ext : Externals) (env : CPUX86State) (rid v : Nat) : CPUX86State :=
  let ecx := env.regs R_ECX
  let eax := env.regs R_EAX
  let edx := env.regs R_EDX
  let r1 := Function.update (Function.update (Function.update env.regs R_ECX rid) R_EAX (v % U32)) R_EDX (v / U32 % U32)
  let env1 := ext.wrmsr { env with regs := r1 }
  let r2 := Function.update (Function.update (Function.update env1.regs R_ECX ecx) R_EAX eax) R_EDX edx
  { env1 with regs := r2 }

/-- The engine set-PC operation `x86_set_pc`: in 16-bit mode the target
address is translated back to an internal offset by subtracting 16 times
the CS selector — but through a signed 16-bit cast of the selector
(`int16_t cs = (uint16_t)selector`), so the subtrahend is sign-extended;
otherwise the address is stored directly. -/
def x86_set_pc (env : CPUX86State) (mode : UcMode) (address : Nat) : CPUX86State :=
  if mode = .m16 then
    let sel : Int := (env.segs R_CS).selector % U16
    let cs : Int := if sel < 2 ^ 15 then sel else sel - U16
    { env with eip := (((address : Int) - cs * 16) % (U64 : Int)).toNat }
  else
    { env with eip := address % U64 }

/-- The engine get-PC operation `x86_get_pc`: in 16-bit mode the visible
PC is 16 times the (unsigned) CS selector plus the internal offset. -/
def x86_get_pc (env : CPUX86State) (mode : UcMode) : Nat :=
  if mode = .m16 then
    ((env.segs R_CS).selector * 16 % U32 + env.eip) % U64
  else
    env.eip % U64

/-- Reset entry point `x86_reg_reset`: zero the general, segment,
control, descriptor-table, flags, floating point status/control/tag,
vector and model-specific state (the 80-bit floating point data
registers fpregs and the debug registers are not touched), then
re-establish the mode-specific invariants (16-bit: flat real-mode
segments with base 0 and limit 0xffff; 32/64 bit: protected mode;
64-bit additionally the long-mode EFER bits). -/
def x86_reg_reset (env : CPUX86State) (mode : UcMode) : CPUX86State :=
  let env := { env with
    regs := fun _ => 0
    segs := fun _ => ⟨0, 0, 0, 0⟩
    cr := fun _ => 0
    ldt := ⟨0, 0, 0, 0⟩
    gdt := ⟨0, 0, 0, 0⟩
    tr := ⟨0, 0, 0, 0⟩
    idt := ⟨0, 0, 0, 0⟩
    eip := 0 }
  let env := cpu_load_eflags env 0
  let env := { env with
    cc_op := CC_OP_EFLAGS
    fpstt := 0
    fpus := 0
    fpuc := 0
    fptags := fun _ => false
    mxcsr := 0
    xmm_regs := fun _ => (0, 0)
    xmm_t0 := 0
    mmx_t0 := 0
    ymmh_regs := fun _ => (0, 0)
    opmask_regs := fun _ => 0
    zmmh_regs := fun _ => 0
    sysenter_cs := 0
    sysenter_esp := 0
    sysenter_eip := 0
    efer := 0
    star := 0
    vm_hsave := 0
    tsc := 0
    tsc_adjust := 0
    tsc_deadline := 0
    mcg_status := 0
    msr_ia32_misc_enable := 0
    msr_ia32_feature_control := 0
    msr_fixed_ctr_ctrl := 0
    msr_global_ctrl := 0
    msr_global_status := 0
    msr_global_ovf_ctrl := 0
    msr_fixed_counters := fun _ => 0
    msr_gp_counters := fun _ => 0
    msr_gp_evtsel := fun _ => 0
    hi16_zmm_regs := fun _ => 0
    lstar := 0
    cstar := 0
    fmask := 0
    kernelgsbase := 0 }
  match mode with
  | .m16 =>
    let env := { env with hflags := 0, cr := Function.update env.cr 0 0 }
    let env := cpu_x86_load_seg_cache env R_CS 0 0 0xffff
      (DESC_P_MASK ||| DESC_S_MASK ||| DESC_CS_MASK ||| DESC_R_MASK ||| DESC_A_MASK)
    let env := load_seg_16_helper env R_DS 0
    let env := load_seg_16_helper env R_ES 0
    let env := load_seg_16_helper env R_SS 0
    let env := load_seg_16_helper env R_FS 0
    let env := load_seg_16_helper env R_GS 0
    env
  | .m32 =>
    let env := { env with hflags := env.hflags ||| (HF_CS32_MASK ||| HF_SS32_MASK ||| HF_OSFXSR_MASK) }
    cpu_x86_update_cr0 env CR0_PE_MASK
  | .m64 =>
    let env := { env with hflags :=
      (env.hflags ||| (HF_CS32_MASK ||| HF_SS32_MASK ||| HF_CS64_MASK ||| HF_LMA_MASK ||| HF_OSFXSR_MASK))
        &&& (U64 - 1 - HF_ADDSEG_MASK) }
    let env := { env with efer := env.efer ||| (MSR_EFER_LMA ||| MSR_EFER_LME) }
    let env := cpu_x86_update_cr0 env CR0_PE_MASK
    { env with features_8000_0001_edx := env.features_8000_0001_edx ||| CPUID_EXT2_LM }

/-- The x86 register identifier space as the source switches distinguish
it.  Families the source addresses by ranges carry a `Fin` index: FP0-7,
ST0-7, XMM0-7 (`XMM`), XMM8-15 (`XMMHI`, 64-bit mode only), YMM0-15,
CR0-4, DR0-7, and the four width views of R8-R15 (`R64`, `R32`, `R16`,
`R8v`).  `invalid` stands for every identifier outside the switches. -/
inductive UcX86Reg where
  | FP (i : Fin 8)
  | FPSW
  | FPCW
  | FPTAG
  | XMM (i : Fin 8)
  | ST (i : Fin 8)
  | YMM (i : Fin 16)
  | FIP
  | FCS
  | FDP
  | FDS
  | FOP
  | CR (i : Fin 5)
  | DR (i : Fin 8)
  | FLAGS
  | EFLAGS
  | RFLAGS
  | RAX
  | EAX
  | AX
  | AH
  | AL
  | RBX
  | EBX
  | BX
  | BH
  | BL
  | RCX
  | ECX
  | CX
  | CH
  | CL
  | RDX
  | EDX
  | DX
  | DH
  | DL
  | RSP
  | ESP
  | SP
  | SPL
  | RBP
  | EBP
  | BP
  | BPL
  | RSI
  | ESI
  | SI
  | SIL
  | RDI
  | EDI
  | DI
  | DIL
  | RIP
  | EIP
  | IP
  | CS
  | DS
  | SS
  | ES
  | FS
  | GS
  | FS_BASE
  | GS_BASE
  | R64 (i : Fin 8)
  | R32 (i : Fin 8)
  | R16 (i : Fin 8)
  | R8v (i : Fin 8)
  | XMMHI (i : Fin 8)
  | IDTR
  | GDTR
  | LDTR
  | TR
  | MSR
  | MXCSR
  | invalid (n : Nat)

/-- Store into one general-register slot (`env->regs[i] = x`). -/
def setReg (env : CPUX86State) (i x : Nat) : CPUX86State :=
  { env with regs := Function.update env.regs i x }

/-- Loop body of the FPTAG read: shift the accumulator left by two and
classify physical slot i from its contents — empty as recorded in
fptags, zero when the biased exponent (EXPD) and the mantissa (MANTD)
are both zero, special (NaN, infinity, denormal) when the exponent is
zero or all-ones (MAXEXPD) or the explicit bit is unset. -/
def fptag_classify (env : CPUX86State) (fptag i : Nat) : Nat :=
  let fptag := fptag <<< 2
  if env.fptags i then fptag ||| 3
  else
    let tmp := env.fpregs i
    let exp := tmp.upper &&& 0x7fff
    let mant := tmp.mant
    if exp = 0 ∧ mant = 0 then fptag ||| 1
    else if exp = 0 ∨ exp = 0x7fff ∨ mant &&& (1 <<< 63) = 0 then fptag ||| 2
    else fptag

/-- Synthesized floating point tag word of the FPTAG read case: the loop
for i = 7 down to 0. -/
def x86_fptag (env : CPUX86State) : Nat :=
  [7, 6, 5, 4, 3, 2, 1, 0].foldl (fptag_classify env) 0

/-- First (mode-independent) switch of the x86 reg_write accessor:
floating point, XMM0-7, ST0-7, YMM and the FIP/FCS/FDP/FDS/FOP group.
`some` is a branch that returns; `none` falls through to the
mode-dependent switch. -/
def reg_write_common (env : CPUX86State) (regid : UcX86Reg) (value : RegVal)
    (size : Option Nat) : Option (UcErr × CPUX86State × Bool) :=
  match regid with
  | .FP i =>
    some (if sizeOk size 10 then
      (.ok, { env with fpregs := Function.update env.fpregs i.val ⟨value.f80m % U64, value.f80e % U16⟩ }, false)
    else (.arg, env, false))
  | .FPSW =>
    some (if sizeOk size 2 then
      (.ok, { env with fpus := value.vI % U16 &&& 0xC7FF, fpstt := ((value.vI % U16) >>> 11) &&& 7 }, false)
    else (.arg, env, false))
  | .FPCW =>
    some (if sizeOk size 2 then (.ok, cpu_set_fpuc env (value.vI % U16), false)
    else (.arg, env, false))
  | .FPTAG =>
    some (if sizeOk size 2 then
      (.ok, ([0, 1, 2, 3, 4, 5, 6, 7].foldl
        (fun p i =>
          ({ p.1 with fptags := Function.update p.1.fptags i ((p.2 &&& 3) == 3) }, p.2 >>> 2))
        (env, value.vI % U16)).1, false)
    else (.arg, env, false))
  | .XMM i =>
    some (if sizeOk size 16 then
      (.ok, { env with xmm_regs := Function.update env.xmm_regs i.val (value.q0 % U64, value.q1 % U64) }, false)
    else (.arg, env, false))
  | .ST i =>
    some (if sizeOk size 10 then
      (.ok, { env with fpregs := Function.update env.fpregs ((env.fpstt + i.val) &&& 7) ⟨value.f80m % U64, value.f80e % U16⟩ }, false)
    else (.arg, env, false))
  | .YMM i =>
    some (if sizeOk size 32 then
      (.ok, { env with
        xmm_regs := Function.update env.xmm_regs i.val (value.q0 % U64, value.q1 % U64)
        ymmh_regs := Function.update env.ymmh_regs i.val (value.q2 % U64, value.q3 % U64) }, false)
    else (.arg, env, false))
  | .FIP =>
    some (if sizeOk size 8 then (.ok, { env with fpip := value.vI % U64 }, false)
    else (.arg, env, false))
  | .FCS =>
    some (if sizeOk size 2 then (.ok, { env with fpcs := value.vI % U16 }, false)
    else (.arg, env, false))
  | .FDP =>
    some (if sizeOk size 8 then (.ok, { env with fpdp := value.vI % U64 }, false)
    else (.arg, env, false))
  | .FDS =>
    some (if sizeOk size 2 then (.ok, { env with fpds := value.vI % U16 }, false)
    else (.arg, env, false))
  | .FOP =>
    some (if sizeOk size 2 then (.ok, { env with fpop := value.vI % U16 }, false)
    else (.arg, env, false))
  | _ => none

/-- UC_MODE_32 switch of the x86 reg_write accessor (also reached from
UC_MODE_16 through the fall-through). -/
def reg_write_32 (ext : Externals) (env : CPUX86State) (regid : UcX86Reg) (value : RegVal)
    (size : Option Nat) : UcErr × CPUX86State × Bool :=
  match regid with
  | .CR i =>
    if sizeOk size 4 then
      let env1 :=
        if i.val = 0 then cpu_x86_update_cr0 env (value.vI % U32)
        else if i.val = 4 then cpu_x86_update_cr4 env (value.vI % U32)
        else cpu_x86_update_cr3 env (value.vI % U32)
      (.ok, { env1 with cr := Function.update env1.cr i.val (value.vI % U32) }, false)
    else (.arg, env, false)
  | .DR i =>
    if sizeOk size 4 then (.ok, { env with dr := Function.update env.dr i.val (value.vI % U32) }, false)
    else (.arg, env, false)
  | .FLAGS =>
    if sizeOk size 2 then (.ok, cpu_load_eflags env (value.vI % U16), false)
    else (.arg, env, false)
  | .EFLAGS =>
    if sizeOk size 4 then (.ok, cpu_load_eflags env (value.vI % U32), false)
    else (.arg, env, false)
  | .EAX =>
    if sizeOk size 4 then (.ok, setReg env R_EAX (value.vI % U32), false) else (.arg, env, false)
  | .AX =>
    if sizeOk size 2 then (.ok, setReg env R_EAX (WRITE_WORD (env.regs R_EAX) value.vI), false)
    else (.arg, env, false)
  | .AH =>
    if sizeOk size 1 then (.ok, setReg env R_EAX (WRITE_BYTE_H (env.regs R_EAX) value.vI), false)
    else (.arg, env, false)
  | .AL =>
    if sizeOk size 1 then (.ok, setReg env R_EAX (WRITE_BYTE_L (env.regs R_EAX) value.vI), false)
    else (.arg, env, false)
  | .EBX =>
    if sizeOk size 4 then (.ok, setReg env R_EBX (value.vI % U32), false) else (.arg, env, false)
  | .BX =>
    if sizeOk size 2 then (.ok, setReg env R_EBX (WRITE_WORD (env.regs R_EBX) value.vI), false)
    else (.arg, env, false)
  | .BH =>
    if sizeOk size 1 then (.ok, setReg env R_EBX (WRITE_BYTE_H (env.regs R_EBX) value.vI), false)
    else (.arg, env, false)
  | .BL =>
    if sizeOk size 1 then (.ok, setReg env R_EBX (WRITE_BYTE_L (env.regs R_EBX) value.vI), false)
    else (.arg, env, false)
  | .ECX =>
    if sizeOk size 4 then (.ok, setReg env R_ECX (value.vI % U32), false) else (.arg, env, false)
  | .CX =>
    if sizeOk size 2 then (.ok, setReg env R_ECX (WRITE_WORD (env.regs R_ECX) value.vI), false)
    else (.arg, env, false)
  | .CH =>
    if sizeOk size 1 then (.ok, setReg env R_ECX (WRITE_BYTE_H (env.regs R_ECX) value.vI), false)
    else (.arg, env, false)
  | .CL =>
    if sizeOk size 1 then (.ok, setReg env R_ECX (WRITE_BYTE_L (env.regs R_ECX) value.vI), false)
    else (.arg, env, false)
  | .EDX =>
    if sizeOk size 4 then (.ok, setReg env R_EDX (value.vI % U32), false) else (.arg, env, false)
  | .DX =>
    if sizeOk size 2 then (.ok, setReg env R_EDX (WRITE_WORD (env.regs R_EDX) value.vI), false)
    else (.arg, env, false)
  | .DH =>
    if sizeOk size 1 then (.ok, setReg env R_EDX (WRITE_BYTE_H (env.regs R_EDX) value.vI), false)
    else (.arg, env, false)
  | .DL =>
    if sizeOk size 1 then (.ok, setReg env R_EDX (WRITE_BYTE_L (env.regs R_EDX) value.vI), false)
    else (.arg, env, false)
  | .ESP =>
    if sizeOk size 4 then (.ok, setReg env R_ESP (value.vI % U32), false) else (.arg, env, false)
  | .SP =>
    if sizeOk size 2 then (.ok, setReg env R_ESP (WRITE_WORD (env.regs R_ESP) value.vI), false)
    else (.arg, env, false)
  | .EBP =>
    if sizeOk size 4 then (.ok, setReg env R_EBP (value.vI % U32), false) else (.arg, env, false)
  | .BP =>
    if sizeOk size 2 then (.ok, setReg env R_EBP (WRITE_WORD (env.regs R_EBP) value.vI), false)
    else (.arg, env, false)
  | .ESI =>
    if sizeOk size 4 then (.ok, setReg env R_ESI (value.vI % U32), false) else (.arg, env, false)
  | .SI =>
    if sizeOk size 2 then (.ok, setReg env R_ESI (WRITE_WORD (env.regs R_ESI) value.vI), false)
    else (.arg, env, false)
  | .EDI =>
    if sizeOk size 4 then (.ok, setReg env R_EDI (value.vI % U32), false) else (.arg, env, false)
  | .DI =>
    if sizeOk size 2 then (.ok, setReg env R_EDI (WRITE_WORD (env.regs R_EDI) value.vI), false)
    else (.arg, env, false)
  | .EIP =>
    if sizeOk size 4 then (.ok, { env with eip := value.vI % U32 }, true) else (.arg, env, false)
  | .IP =>
    if sizeOk size 2 then (.ok, { env with eip := value.vI % U16 }, true) else (.arg, env, false)
  | .CS =>
    if sizeOk size 2 then
      if ext.segCheck R_CS (value.vI % U16) then
        (.ok, cpu_x86_load_seg env R_CS (value.vI % U16), false)
      else (.exception, env, false)
    else (.arg, env, false)
  | .DS =>
    if sizeOk size 2 then
      if ext.segCheck R_DS (value.vI % U16) then
        (.ok, cpu_x86_load_seg env R_DS (value.vI % U16), false)
      else (.exception, env, false)
    else (.arg, env, false)
  | .SS =>
    if sizeOk size 2 then
      if ext.segCheck R_SS (value.vI % U16) then
        (.ok, cpu_x86_load_seg env R_SS (value.vI % U16), false)
      else (.exception, env, false)
    else (.arg, env, false)
  | .ES =>
    if sizeOk size 2 then
      if ext.segCheck R_ES (value.vI % U16) then
        (.ok, cpu_x86_load_seg env R_ES (value.vI % U16), false)
      else (.exception, env, false)
    else (.arg, env, false)
  | .FS =>
    if sizeOk size 2 then
      if ext.segCheck R_FS (value.vI % U16) then
        (.ok, cpu_x86_load_seg env R_FS (value.vI % U16), false)
      else (.exception, env, false)
    else (.arg, env, false)
  | .GS =>
    if sizeOk size 2 then
      if ext.segCheck R_GS (value.vI % U16) then
        (.ok, cpu_x86_load_seg env R_GS (value.vI % U16), false)
      else (.exception, env, false)
    else (.arg, env, false)
  | .IDTR =>
    if sizeOk size SZ_MMR then
      (.ok, { env with idt := { env.idt with limit := value.mmrLimit % U16, base := value.mmrBase % U32 } }, false)
    else (.arg, env, false)
  | .GDTR =>
    if sizeOk size SZ_MMR then
      (.ok, { env with gdt := { env.gdt with limit := value.mmrLimit % U16, base := value.mmrBase % U32 } }, false)
    else (.arg, env, false)
  | .LDTR =>
    if sizeOk size SZ_MMR then
      (.ok, { env with ldt := ⟨value.mmrSelector % U16, value.mmrBase % U32, value.mmrLimit % U32, value.mmrFlags % U32⟩ }, false)
    else (.arg, env, false)
  | .TR =>
    if sizeOk size SZ_MMR then
      (.ok, { env with tr := ⟨value.mmrSelector % U16, value.mmrBase % U32, value.mmrLimit % U32, value.mmrFlags % U32⟩ }, false)
    else (.arg, env, false)
  | .MSR =>
    if sizeOk size SZ_MSR then (.ok, x86_msr_write ext env value.msrRid value.msrValue, false)
    else (.arg, env, false)
  | .MXCSR =>
    if sizeOk size 4 then (.ok, cpu_set_mxcsr env (value.vI % U32), false) else (.arg, env, false)
  | _ => (.arg, env, false)

/-- UC_MODE_16 switch of the x86 reg_write accessor: the five non-CS
segment registers are loaded real-mode style without the legality
pre-check; every other identifier (CS included) falls through to the
32-bit switch. -/
def reg_write_16 (ext : Externals) (env : CPUX86State) (regid : UcX86Reg) (value : RegVal)
    (size : Option Nat) : UcErr × CPUX86State × Bool :=
  match regid with
  | .ES =>
    if sizeOk size 2 then (.ok, load_seg_16_helper env R_ES (value.vI % U16), false)
    else (.arg, env, false)
  | .SS =>
    if sizeOk size 2 then (.ok, load_seg_16_helper env R_SS (value.vI % U16), false)
    else (.arg, env, false)
  | .DS =>
    if sizeOk size 2 then (.ok, load_seg_16_helper env R_DS (value.vI % U16), false)
    else (.arg, env, false)
  | .FS =>
    if sizeOk size 2 then (.ok, load_seg_16_helper env R_FS (value.vI % U16), false)
    else (.arg, env, false)
  | .GS =>
    if sizeOk size 2 then (.ok, load_seg_16_helper env R_GS (value.vI % U16), false)
    else (.arg, env, false)
  | _ => reg_write_32 ext env regid value size

/-- UC_MODE_64 switch of the x86 reg_write accessor.  CS, DS, SS and ES
selector writes store the selector directly without the legality
pre-check; only FS and GS go through it. -/
def reg_write_64 (ext : Externals) (env : CPUX86State) (regid : UcX86Reg) (value : RegVal)
    (size : Option Nat) : UcErr × CPUX86State × Bool :=
  match regid with
  | .CR i =>
    if sizeOk size 8 then
      let env1 :=
        if i.val = 0 then cpu_x86_update_cr0 env (value.vI % U32)
        else if i.val = 4 then cpu_x86_update_cr4 env (value.vI % U32)
        else cpu_x86_update_cr3 env (value.vI % U32)
      (.ok, { env1 with cr := Function.update env1.cr i.val (value.vI % U64) }, false)
    else (.arg, env, false)
  | .DR i =>
    if sizeOk size 8 then (.ok, { env with dr := Function.update env.dr i.val (value.vI % U64) }, false)
    else (.arg, env, false)
  | .FLAGS =>
    if sizeOk size 2 then (.ok, cpu_load_eflags env (value.vI % U16), false)
    else (.arg, env, false)
  | .EFLAGS =>
    if sizeOk size 4 then (.ok, cpu_load_eflags env (value.vI % U32), false)
    else (.arg, env, false)
  | .RFLAGS =>
    if sizeOk size 8 then (.ok, cpu_load_eflags env (value.vI % U64), false)
    else (.arg, env, false)
  | .RAX =>
    if sizeOk size 8 then (.ok, setReg env R_EAX (value.vI % U64), false) else (.arg, env, false)
  | .EAX =>
    if sizeOk size 4 then (.ok, setReg env R_EAX (WRITE_DWORD (env.regs R_EAX) value.vI), false)
    else (.arg, env, false)
  | .AX =>
    if sizeOk size 2 then (.ok, setReg env R_EAX (WRITE_WORD (env.regs R_EAX) value.vI), false)
    else (.arg, env, false)
  | .AH =>
    if sizeOk size 1 then (.ok, setReg env R_EAX (WRITE_BYTE_H (env.regs R_EAX) value.vI), false)
    else (.arg, env, false)
  | .AL =>
    if sizeOk size 1 then (.ok, setReg env R_EAX (WRITE_BYTE_L (env.regs R_EAX) value.vI), false)
    else (.arg, env, false)
  | .RBX =>
    if sizeOk size 8 then (.ok, setReg env R_EBX (value.vI % U64), false) else (.arg, env, false)
  | .EBX =>
    if sizeOk size 4 then (.ok, setReg env R_EBX (WRITE_DWORD (env.regs R_EBX) value.vI), false)
    else (.arg, env, false)
  | .BX =>
    if sizeOk size 2 then (.ok, setReg env R_EBX (WRITE_WORD (env.regs R_EBX) value.vI), false)
    else (.arg, env, false)
  | .BH =>
    if sizeOk size 1 then (.ok, setReg env R_EBX (WRITE_BYTE_H (env.regs R_EBX) value.vI), false)
    else (.arg, env, false)
  | .BL =>
    if sizeOk size 1 then (.ok, setReg env R_EBX (WRITE_BYTE_L (env.regs R_EBX) value.vI), false)
    else (.arg, env, false)
  | .RCX =>
    if sizeOk size 8 then (.ok, setReg env R_ECX (value.vI % U64), false) else (.arg, env, false)
  | .ECX =>
    if sizeOk size 4 then (.ok, setReg env R_ECX (WRITE_DWORD (env.regs R_ECX) value.vI), false)
    else (.arg, env, false)
  | .CX =>
    if sizeOk size 2 then (.ok, setReg env R_ECX (WRITE_WORD (env.regs R_ECX) value.vI), false)
    else (.arg, env, false)
  | .CH =>
    if sizeOk size 1 then (.ok, setReg env R_ECX (WRITE_BYTE_H (env.regs R_ECX) value.vI), false)
    else (.arg, env, false)
  | .CL =>
    if sizeOk size 1 then (.ok, setReg env R_ECX (WRITE_BYTE_L (env.regs R_ECX) value.vI), false)
    else (.arg, env, false)
  | .RDX =>
    if sizeOk size 8 then (.ok, setReg env R_EDX (value.vI % U64), false) else (.arg, env, false)
  | .EDX =>
    if sizeOk size 4 then (.ok, setReg env R_EDX (WRITE_DWORD (env.regs R_EDX) value.vI), false)
    else (.arg, env, false)
  | .DX =>
    if sizeOk size 2 then (.ok, setReg env R_EDX (WRITE_WORD (env.regs R_EDX) value.vI), false)
    else (.arg, env, false)
  | .DH =>
    if sizeOk size 1 then (.ok, setReg env R_EDX (WRITE_BYTE_H (env.regs R_EDX) value.vI), false)
    else (.arg, env, false)
  | .DL =>
    if sizeOk size 1 then (.ok, setReg env R_EDX (WRITE_BYTE_L (env.regs R_EDX) value.vI), false)
    else (.arg, env, false)
  | .RSP =>
    if sizeOk size 8 then (.ok, setReg env R_ESP (value.vI % U64), false) else (.arg, env, false)
  | .ESP =>
    if sizeOk size 4 then (.ok, setReg env R_ESP (WRITE_DWORD (env.regs R_ESP) value.vI), false)
    else (.arg, env, false)
  | .SP =>
    if sizeOk size 2 then (.ok, setReg env R_ESP (WRITE_WORD (env.regs R_ESP) value.vI), false)
    else (.arg, env, false)
  | .SPL =>
    if sizeOk size 1 then (.ok, setReg env R_ESP (WRITE_BYTE_L (env.regs R_ESP) value.vI), false)
    else (.arg, env, false)
  | .RBP =>
    if sizeOk size 8 then (.ok, setReg env R_EBP (value.vI % U64), false) else (.arg, env, false)
  | .EBP =>
    if sizeOk size 4 then (.ok, setReg env R_EBP (WRITE_DWORD (env.regs R_EBP) value.vI), false)
    else (.arg, env, false)
  | .BP =>
    if sizeOk size 2 then (.ok, setReg env R_EBP (WRITE_WORD (env.regs R_EBP) value.vI), false)
    else (.arg, env, false)
  | .BPL =>
    if sizeOk size 1 then (.ok, setReg env R_EBP (WRITE_BYTE_L (env.regs R_EBP) value.vI), false)
    else (.arg, env, false)
  | .RSI =>
    if sizeOk size 8 then (.ok, setReg env R_ESI (value.vI % U64), false) else (.arg, env, false)
  | .ESI =>
    if sizeOk size 4 then (.ok, setReg env R_ESI (WRITE_DWORD (env.regs R_ESI) value.vI), false)
    else (.arg, env, false)
  | .SI =>
    if sizeOk size 2 then (.ok, setReg env R_ESI (WRITE_WORD (env.regs R_ESI) value.vI), false)
    else (.arg, env, false)
  | .SIL =>
    if sizeOk size 1 then (.ok, setReg env R_ESI (WRITE_BYTE_L (env.regs R_ESI) value.vI), false)
    else (.arg, env, false)
  | .RDI =>
    if sizeOk size 8 then (.ok, setReg env R_EDI (value.vI % U64), false) else (.arg, env, false)
  | .EDI =>
    if sizeOk size 4 then (.ok, setReg env R_EDI (WRITE_DWORD (env.regs R_EDI) value.vI), false)
    else (.arg, env, false)
  | .DI =>
    if sizeOk size 2 then (.ok, setReg env R_EDI (WRITE_WORD (env.regs R_EDI) value.vI), false)
    else (.arg, env, false)
  | .DIL =>
    if sizeOk size 1 then (.ok, setReg env R_EDI (WRITE_BYTE_L (env.regs R_EDI) value.vI), false)
    else (.arg, env, false)
  | .RIP =>
    if sizeOk size 8 then (.ok, { env with eip := value.vI % U64 }, true) else (.arg, env, false)
  | .EIP =>
    if sizeOk size 4 then (.ok, { env with eip := value.vI % U32 }, true) else (.arg, env, false)
  | .IP =>
    if sizeOk size 2 then (.ok, { env with eip := WRITE_WORD env.eip value.vI }, true)
    else (.arg, env, false)
  | .CS =>
    if sizeOk size 2 then
      (.ok, { env with segs := Function.update env.segs R_CS ({ env.segs R_CS with selector := value.vI % U16 }) }, false)
    else (.arg, env, false)
  | .DS =>
    if sizeOk size 2 then
      (.ok, { env with segs := Function.update env.segs R_DS ({ env.segs R_DS with selector := value.vI % U16 }) }, false)
    else (.arg, env, false)
  | .SS =>
    if sizeOk size 2 then
      (.ok, { env with segs := Function.update env.segs R_SS ({ env.segs R_SS with selector := value.vI % U16 }) }, false)
    else (.arg, env, false)
  | .ES =>
    if sizeOk size 2 then
      (.ok, { env with segs := Function.update env.segs R_ES ({ env.segs R_ES with selector := value.vI % U16 }) }, false)
    else (.arg, env, false)
  | .FS =>
    if sizeOk size 2 then
      if ext.segCheck R_FS (value.vI % U16) then
        (.ok, cpu_x86_load_seg env R_FS (value.vI % U16), false)
      else (.exception, env, false)
    else (.arg, env, false)
  | .GS =>
    if sizeOk size 2 then
      if ext.segCheck R_GS (value.vI % U16) then
        (.ok, cpu_x86_load_seg env R_GS (value.vI % U16), false)
      else (.exception, env, false)
    else (.arg, env, false)
  | .R64 i =>
    if sizeOk size 8 then (.ok, setReg env (8 + i.val) (value.vI % U64), false)
    else (.arg, env, false)
  | .R32 i =>
    if sizeOk size 4 then (.ok, setReg env (8 + i.val) (WRITE_DWORD (env.regs (8 + i.val)) value.vI), false)
    else (.arg, env, false)
  | .R16 i =>
    if sizeOk size 2 then (.ok, setReg env (8 + i.val) (WRITE_WORD (env.regs (8 + i.val)) value.vI), false)
    else (.arg, env, false)
  | .R8v i =>
    if sizeOk size 1 then (.ok, setReg env (8 + i.val) (WRITE_BYTE_L (env.regs (8 + i.val)) value.vI), false)
    else (.arg, env, false)
  | .IDTR =>
    if sizeOk size SZ_MMR then
      (.ok, { env with idt := { env.idt with limit := value.mmrLimit % U16, base := value.mmrBase % U64 } }, false)
    else (.arg, env, false)
  | .GDTR =>
    if sizeOk size SZ_MMR then
      (.ok, { env with gdt := { env.gdt with limit := value.mmrLimit % U16, base := value.mmrBase % U64 } }, false)
    else (.arg, env, false)
  | .LDTR =>
    if sizeOk size SZ_MMR then
      (.ok, { env with ldt := ⟨value.mmrSelector % U16, value.mmrBase % U64, value.mmrLimit % U32, value.mmrFlags % U32⟩ }, false)
    else (.arg, env, false)
  | .TR =>
    if sizeOk size SZ_MMR then
      (.ok, { env with tr := ⟨value.mmrSelector % U16, value.mmrBase % U64, value.mmrLimit % U32, value.mmrFlags % U32⟩ }, false)
    else (.arg, env, false)
  | .MSR =>
    if sizeOk size SZ_MSR then (.ok, x86_msr_write ext env value.msrRid value.msrValue, false)
    else (.arg, env, false)
  | .MXCSR =>
    if sizeOk size 4 then (.ok, cpu_set_mxcsr env (value.vI % U32), false) else (.arg, env, false)
  | .XMMHI i =>
    if sizeOk size 16 then
      (.ok, { env with xmm_regs := Function.update env.xmm_regs (8 + i.val) (value.q0 % U64, value.q1 % U64) }, false)
    else (.arg, env, false)
  | .FS_BASE =>
    if sizeOk size 8 then
      (.ok, { env with segs := Function.update env.segs R_FS ({ env.segs R_FS with base := value.vI % U64 }) }, false)
    else (.arg, env, false)
  | .GS_BASE =>
    if sizeOk size 8 then
      (.ok, { env with segs := Function.update env.segs R_GS ({ env.segs R_GS with base := value.vI % U64 }) }, false)
    else (.arg, env, false)
  | _ => (.arg, env, false)

/-- Single-register write accessor of qemu/target/i386/unicorn.c: the
mode-independent switch first, then the mode-dependent one.  The third
component of the result is the PC-dirty flag (`*setpc`). -/
def reg_write (ext : Externals) (env : CPUX86State) (regid : UcX86Reg) (value : RegVal)
    (size : Option Nat) (mode : UcMode) : UcErr × CPUX86State × Bool :=
  match reg_write_common env regid value size with
  | some r => r
  | none =>
    match mode with
    | .m16 => reg_write_16 ext env regid value size
    | .m32 => reg_write_32 ext env regid value size
    | .m64 => reg_write_64 ext env regid value size

/-- First (mode-independent) switch of the x86 reg_read accessor.  The
result carries the possibly mutated state (the MSR path borrows
registers) and the buffer content after the call: `some out` means the
branch wrote the caller buffer, starting from its previous content
`value`. -/
def reg_read_common (env : CPUX86State) (regid : UcX86Reg) (value : RegVal)
    (size : Option Nat) : Option (UcErr × CPUX86State × Option RegVal) :=
  match regid with
  | .FP i =>
    some (if sizeOk size 10 then
      (.ok, env, some (.f80 ((env.fpregs i.val).mant % U64) ((env.fpregs i.val).upper % U16)))
    else (.arg, env, none))
  | .FPSW =>
    some (if sizeOk size 2 then
      (.ok, env, some (.i ((env.fpus % U16 &&& 0xC7FF) ||| ((env.fpstt &&& 7) <<< 11))))
    else (.arg, env, none))
  | .FPCW =>
    some (if sizeOk size 2 then (.ok, env, some (.i (env.fpuc % U16))) else (.arg, env, none))
  | .FPTAG =>
    some (if sizeOk size 2 then (.ok, env, some (.i (x86_fptag env))) else (.arg, env, none))
  | .XMM i =>
    some (if sizeOk size 16 then
      (.ok, env, some ({ value with q0 := (env.xmm_regs i.val).1 % U64, q1 := (env.xmm_regs i.val).2 % U64 }))
    else (.arg, env, none))
  | .ST i =>
    some (if sizeOk size 10 then
      (.ok, env, some (.f80 ((env.fpregs ((env.fpstt + i.val) &&& 7)).mant % U64)
        ((env.fpregs ((env.fpstt + i.val) &&& 7)).upper % U16)))
    else (.arg, env, none))
  | .YMM i =>
    some (if sizeOk size 32 then
      (.ok, env, some ({ value with
        q0 := (env.xmm_regs i.val).1 % U64
        q1 := (env.xmm_regs i.val).2 % U64
        q2 := (env.ymmh_regs i.val).1 % U64
        q3 := (env.ymmh_regs i.val).2 % U64 }))
    else (.arg, env, none))
  | .FIP =>
    some (if sizeOk size 8 then (.ok, env, some (.i (env.fpip % U64))) else (.arg, env, none))
  | .FCS =>
    some (if sizeOk size 2 then (.ok, env, some (.i (env.fpcs % U16))) else (.arg, env, none))
  | .FDP =>
    some (if sizeOk size 8 then (.ok, env, some (.i (env.fpdp % U64))) else (.arg, env, none))
  | .FDS =>
    some (if sizeOk size 2 then (.ok, env, some (.i (env.fpds % U16))) else (.arg, env, none))
  | .FOP =>
    some (if sizeOk size 2 then (.ok, env, some (.i (env.fpop % U16))) else (.arg, env, none))
  | _ => none

/-- UC_MODE_32 switch of the x86 reg_read accessor (also reached from
UC_MODE_16 through the fall-through). -/
def reg_read_32 (ext : Externals) (env : CPUX86State) (regid : UcX86Reg) (value : RegVal)
    (size : Option Nat) : UcErr × CPUX86State × Option RegVal :=
  match regid with
  | .CR i =>
    if sizeOk size 4 then (.ok, env, some (.i (env.cr i.val % U32))) else (.arg, env, none)
  | .DR i =>
    if sizeOk size 4 then (.ok, env, some (.i (env.dr i.val % U32))) else (.arg, env, none)
  | .FLAGS =>
    if sizeOk size 2 then (.ok, env, some (.i (cpu_compute_eflags env % U16))) else (.arg, env, none)
  | .EFLAGS =>
    if sizeOk size 4 then (.ok, env, some (.i (cpu_compute_eflags env % U32))) else (.arg, env, none)
  | .EAX =>
    if sizeOk size 4 then (.ok, env, some (.i (env.regs R_EAX % U32))) else (.arg, env, none)
  | .AX =>
    if sizeOk size 2 then (.ok, env, some (.i (READ_WORD (env.regs R_EAX)))) else (.arg, env, none)
  | .AH =>
    if sizeOk size 1 then (.ok, env, some (.i (READ_BYTE_H (env.regs R_EAX)))) else (.arg, env, none)
  | .AL =>
    if sizeOk size 1 then (.ok, env, some (.i (READ_BYTE_L (env.regs R_EAX)))) else (.arg, env, none)
  | .EBX =>
    if sizeOk size 4 then (.ok, env, some (.i (env.regs R_EBX % U32))) else (.arg, env, none)
  | .BX =>
    if sizeOk size 2 then (.ok, env, some (.i (READ_WORD (env.regs R_EBX)))) else (.arg, env, none)
  | .BH =>
    if sizeOk size 1 then (.ok, env, some (.i (READ_BYTE_H (env.regs R_EBX)))) else (.arg, env, none)
  | .BL =>
    if sizeOk size 1 then (.ok, env, some (.i (READ_BYTE_L (env.regs R_EBX)))) else (.arg, env, none)
  | .ECX =>
    if sizeOk size 4 then (.ok, env, some (.i (env.regs R_ECX % U32))) else (.arg, env, none)
  | .CX =>
    if sizeOk size 2 then (.ok, env, some (.i (READ_WORD (env.regs R_ECX)))) else (.arg, env, none)
  | .CH =>
    if sizeOk size 1 then (.ok, env, some (.i (READ_BYTE_H (env.regs R_ECX)))) else (.arg, env, none)
  | .CL =>
    if sizeOk size 1 then (.ok, env, some (.i (READ_BYTE_L (env.regs R_ECX)))) else (.arg, env, none)
  | .EDX =>
    if sizeOk size 4 then (.ok, env, some (.i (env.regs R_EDX % U32))) else (.arg, env, none)
  | .DX =>
    if sizeOk size 2 then (.ok, env, some (.i (READ_WORD (env.regs R_EDX)))) else (.arg, env, none)
  | .DH =>
    if sizeOk size 1 then (.ok, env, some (.i (READ_BYTE_H (env.regs R_EDX)))) else (.arg, env, none)
  | .DL =>
    if sizeOk size 1 then (.ok, env, some (.i (READ_BYTE_L (env.regs R_EDX)))) else (.arg, env, none)
  | .ESP =>
    if sizeOk size 4 then (.ok, env, some (.i (env.regs R_ESP % U32))) else (.arg, env, none)
  | .SP =>
    if sizeOk size 2 then (.ok, env, some (.i (READ_WORD (env.regs R_ESP)))) else (.arg, env, none)
  | .EBP =>
    if sizeOk size 4 then (.ok, env, some (.i (env.regs R_EBP % U32))) else (.arg, env, none)
  | .BP =>
    if sizeOk size 2 then (.ok, env, some (.i (READ_WORD (env.regs R_EBP)))) else (.arg, env, none)
  | .ESI =>
    if sizeOk size 4 then (.ok, env, some (.i (env.regs R_ESI % U32))) else (.arg, env, none)
  | .SI =>
    if sizeOk size 2 then (.ok, env, some (.i (READ_WORD (env.regs R_ESI)))) else (.arg, env, none)
  | .EDI =>
    if sizeOk size 4 then (.ok, env, some (.i (env.regs R_EDI % U32))) else (.arg, env, none)
  | .DI =>
    if sizeOk size 2 then (.ok, env, some (.i (READ_WORD (env.regs R_EDI)))) else (.arg, env, none)
  | .EIP =>
    if sizeOk size 4 then (.ok, env, some (.i (env.eip % U32))) else (.arg, env, none)
  | .IP =>
    if sizeOk size 2 then (.ok, env, some (.i (READ_WORD env.eip))) else (.arg, env, none)
  | .CS =>
    if sizeOk size 2 then (.ok, env, some (.i ((env.segs R_CS).selector % U16))) else (.arg, env, none)
  | .DS =>
    if sizeOk size 2 then (.ok, env, some (.i ((env.segs R_DS).selector % U16))) else (.arg, env, none)
  | .SS =>
    if sizeOk size 2 then (.ok, env, some (.i ((env.segs R_SS).selector % U16))) else (.arg, env, none)
  | .ES =>
    if sizeOk size 2 then (.ok, env, some (.i ((env.segs R_ES).selector % U16))) else (.arg, env, none)
  | .FS =>
    if sizeOk size 2 then (.ok, env, some (.i ((env.segs R_FS).selector % U16))) else (.arg, env, none)
  | .GS =>
    if sizeOk size 2 then (.ok, env, some (.i ((env.segs R_GS).selector % U16))) else (.arg, env, none)
  | .IDTR =>
    if sizeOk size SZ_MMR then
      (.ok, env, some ({ value with mmrLimit := env.idt.limit % U16, mmrBase := env.idt.base % U32 }))
    else (.arg, env, none)
  | .GDTR =>
    if sizeOk size SZ_MMR then
      (.ok, env, some ({ value with mmrLimit := env.gdt.limit % U16, mmrBase := env.gdt.base % U32 }))
    else (.arg, env, none)
  | .LDTR =>
    if sizeOk size SZ_MMR then
      (.ok, env, some (.mmr (env.ldt.selector % U16) (env.ldt.base % U32) (env.ldt.limit % U32) (env.ldt.flags % U32)))
    else (.arg, env, none)
  | .TR =>
    if sizeOk size SZ_MMR then
      (.ok, env, some (.mmr (env.tr.selector % U16) (env.tr.base % U32) (env.tr.limit % U32) (env.tr.flags % U32)))
    else (.arg, env, none)
  | .MSR =>
    if sizeOk size SZ_MSR then
      let r := x86_msr_read ext env value.msrRid
      (.ok, r.1, some ({ value with msrValue := r.2 }))
    else (.arg, env, none)
  | .MXCSR =>
    if sizeOk size 4 then (.ok, env, some (.i (env.mxcsr % U32))) else (.arg, env, none)
  | .FS_BASE =>
    if sizeOk size 4 then (.ok, env, some (.i ((env.segs R_FS).base % U32))) else (.arg, env, none)
  | _ => (.arg, env, none)

/-- UC_MODE_16 switch of the x86 reg_read accessor: the five non-CS
segment selectors and FS_BASE are served here; everything else falls
through to the 32-bit switch. -/
def reg_read_16 (ext : Externals) (env : CPUX86State) (regid : UcX86Reg) (value : RegVal)
    (size : Option Nat) : UcErr × CPUX86State × Option RegVal :=
  match regid with
  | .ES =>
    if sizeOk size 2 then (.ok, env, some (.i ((env.segs R_ES).selector % U16))) else (.arg, env, none)
  | .SS =>
    if sizeOk size 2 then (.ok, env, some (.i ((env.segs R_SS).selector % U16))) else (.arg, env, none)
  | .DS =>
    if sizeOk size 2 then (.ok, env, some (.i ((env.segs R_DS).selector % U16))) else (.arg, env, none)
  | .FS =>
    if sizeOk size 2 then (.ok, env, some (.i ((env.segs R_FS).selector % U16))) else (.arg, env, none)
  | .GS =>
    if sizeOk size 2 then (.ok, env, some (.i ((env.segs R_GS).selector % U16))) else (.arg, env, none)
  | .FS_BASE =>
    if sizeOk size 4 then (.ok, env, some (.i ((env.segs R_FS).base % U32))) else (.arg, env, none)
  | _ => reg_read_32 ext env regid value size

/-- UC_MODE_64 switch of the x86 reg_read accessor. -/
def reg_read_64 (ext : Externals) (env : CPUX86State) (regid : UcX86Reg) (value : RegVal)
    (size : Option Nat) : UcErr × CPUX86State × Option RegVal :=
  match regid with
  | .CR i =>
    if sizeOk size 8 then (.ok, env, some (.i (env.cr i.val % U64))) else (.arg, env, none)
  | .DR i =>
    if sizeOk size 8 then (.ok, env, some (.i (env.dr i.val % U64))) else (.arg, env, none)
  | .FLAGS =>
    if sizeOk size 2 then (.ok, env, some (.i (cpu_compute_eflags env % U16))) else (.arg, env, none)
  | .EFLAGS =>
    if sizeOk size 4 then (.ok, env, some (.i (cpu_compute_eflags env % U32))) else (.arg, env, none)
  | .RFLAGS =>
    if sizeOk size 8 then (.ok, env, some (.i (cpu_compute_eflags env % U64))) else (.arg, env, none)
  | .RAX =>
    if sizeOk size 8 then (.ok, env, some (.i (env.regs R_EAX % U64))) else (.arg, env, none)
  | .EAX =>
    if sizeOk size 4 then (.ok, env, some (.i (READ_DWORD (env.regs R_EAX)))) else (.arg, env, none)
  | .AX =>
    if sizeOk size 2 then (.ok, env, some (.i (READ_WORD (env.regs R_EAX)))) else (.arg, env, none)
  | .AH =>
    if sizeOk size 1 then (.ok, env, some (.i (READ_BYTE_H (env.regs R_EAX)))) else (.arg, env, none)
  | .AL =>
    if sizeOk size 1 then (.ok, env, some (.i (READ_BYTE_L (env.regs R_EAX)))) else (.arg, env, none)
  | .RBX =>
    if sizeOk size 8 then (.ok, env, some (.i (env.regs R_EBX % U64))) else (.arg, env, none)
  | .EBX =>
    if sizeOk size 4 then (.ok, env, some (.i (READ_DWORD (env.regs R_EBX)))) else (.arg, env, none)
  | .BX =>
    if sizeOk size 2 then (.ok, env, some (.i (READ_WORD (env.regs R_EBX)))) else (.arg, env, none)
  | .BH =>
    if sizeOk size 1 then (.ok, env, some (.i (READ_BYTE_H (env.regs R_EBX)))) else (.arg, env, none)
  | .BL =>
    if sizeOk size 1 then (.ok, env, some (.i (READ_BYTE_L (env.regs R_EBX)))) else (.arg, env, none)
  | .RCX =>
    if sizeOk size 8 then (.ok, env, some (.i (env.regs R_ECX % U64))) else (.arg, env, none)
  | .ECX =>
    if sizeOk size 4 then (.ok, env, some (.i (READ_DWORD (env.regs R_ECX)))) else (.arg, env, none)
  | .CX =>
    if sizeOk size 2 then (.ok, env, some (.i (READ_WORD (env.regs R_ECX)))) else (.arg, env, none)
  | .CH =>
    if sizeOk size 1 then (.ok, env, some (.i (READ_BYTE_H (env.regs R_ECX)))) else (.arg, env, none)
  | .CL =>
    if sizeOk size 1 then (.ok, env, some (.i (READ_BYTE_L (env.regs R_ECX)))) else (.arg, env, none)
  | .RDX =>
    if sizeOk size 8 then (.ok, env, some (.i (env.regs R_EDX % U64))) else (.arg, env, none)
  | .EDX =>
    if sizeOk size 4 then (.ok, env, some (.i (READ_DWORD (env.regs R_EDX)))) else (.arg, env, none)
  | .DX =>
    if sizeOk size 2 then (.ok, env, some (.i (READ_WORD (env.regs R_EDX)))) else (.arg, env, none)
  | .DH =>
    if sizeOk size 1 then (.ok, env, some (.i (READ_BYTE_H (env.regs R_EDX)))) else (.arg, env, none)
  | .DL =>
    if sizeOk size 1 then (.ok, env, some (.i (READ_BYTE_L (env.regs R_EDX)))) else (.arg, env, none)
  | .RSP =>
    if sizeOk size 8 then (.ok, env, some (.i (env.regs R_ESP % U64))) else (.arg, env, none)
  | .ESP =>
    if sizeOk size 4 then (.ok, env, some (.i (READ_DWORD (env.regs R_ESP)))) else (.arg, env, none)
  | .SP =>
    if sizeOk size 2 then (.ok, env, some (.i (READ_WORD (env.regs R_ESP)))) else (.arg, env, none)
  | .SPL =>
    if sizeOk size 1 then (.ok, env, some (.i (READ_BYTE_L (env.regs R_ESP)))) else (.arg, env, none)
  | .RBP =>
    if sizeOk size 8 then (.ok, env, some (.i (env.regs R_EBP % U64))) else (.arg, env, none)
  | .EBP =>
    if sizeOk size 4 then (.ok, env, some (.i (READ_DWORD (env.regs R_EBP)))) else (.arg, env, none)
  | .BP =>
    if sizeOk size 2 then (.ok, env, some (.i (READ_WORD (env.regs R_EBP)))) else (.arg, env, none)
  | .BPL =>
    if sizeOk size 1 then (.ok, env, some (.i (READ_BYTE_L (env.regs R_EBP)))) else (.arg, env, none)
  | .RSI =>
    if sizeOk size 8 then (.ok, env, some (.i (env.regs R_ESI % U64))) else (.arg, env, none)
  | .ESI =>
    if sizeOk size 4 then (.ok, env, some (.i (READ_DWORD (env.regs R_ESI)))) else (.arg, env, none)
  | .SI =>
    if sizeOk size 2 then (.ok, env, some (.i (READ_WORD (env.regs R_ESI)))) else (.arg, env, none)
  | .SIL =>
    if sizeOk size 1 then (.ok, env, some (.i (READ_BYTE_L (env.regs R_ESI)))) else (.arg, env, none)
  | .RDI =>
    if sizeOk size 8 then (.ok, env, some (.i (env.regs R_EDI % U64))) else (.arg, env, none)
  | .EDI =>
    if sizeOk size 4 then (.ok, env, some (.i (READ_DWORD (env.regs R_EDI)))) else (.arg, env, none)
  | .DI =>
    if sizeOk size 2 then (.ok, env, some (.i (READ_WORD (env.regs R_EDI)))) else (.arg, env, none)
  | .DIL =>
    if sizeOk size 1 then (.ok, env, some (.i (READ_BYTE_L (env.regs R_EDI)))) else (.arg, env, none)
  | .RIP =>
    if sizeOk size 8 then (.ok, env, some (.i (env.eip % U64))) else (.arg, env, none)
  | .EIP =>
    if sizeOk size 4 then (.ok, env, some (.i (READ_DWORD env.eip))) else (.arg, env, none)
  | .IP =>
    if sizeOk size 2 then (.ok, env, some (.i (READ_WORD env.eip))) else (.arg, env, none)
  | .CS =>
    if sizeOk size 2 then (.ok, env, some (.i ((env.segs R_CS).selector % U16))) else (.arg, env, none)
  | .DS =>
    if sizeOk size 2 then (.ok, env, some (.i ((env.segs R_DS).selector % U16))) else (.arg, env, none)
  | .SS =>
    if sizeOk size 2 then (.ok, env, some (.i ((env.segs R_SS).selector % U16))) else (.arg, env, none)
  | .ES =>
    if sizeOk size 2 then (.ok, env, some (.i ((env.segs R_ES).selector % U16))) else (.arg, env, none)
  | .FS =>
    if sizeOk size 2 then (.ok, env, some (.i ((env.segs R_FS).selector % U16))) else (.arg, env, none)
  | .GS =>
    if sizeOk size 2 then (.ok, env, some (.i ((env.segs R_GS).selector % U16))) else (.arg, env, none)
  | .R64 i =>
    if sizeOk size 8 then (.ok, env, some (.i (READ_QWORD (env.regs (8 + i.val))))) else (.arg, env, none)
  | .R32 i =>
    if sizeOk size 4 then (.ok, env, some (.i (READ_DWORD (env.regs (8 + i.val))))) else (.arg, env, none)
  | .R16 i =>
    if sizeOk size 2 then (.ok, env, some (.i (READ_WORD (env.regs (8 + i.val))))) else (.arg, env, none)
  | .R8v i =>
    if sizeOk size 1 then (.ok, env, some (.i (READ_BYTE_L (env.regs (8 + i.val))))) else (.arg, env, none)
  | .IDTR =>
    if sizeOk size SZ_MMR then
      (.ok, env, some ({ value with mmrLimit := env.idt.limit % U16, mmrBase := env.idt.base % U64 }))
    else (.arg, env, none)
  | .GDTR =>
    if sizeOk size SZ_MMR then
      (.ok, env, some ({ value with mmrLimit := env.gdt.limit % U16, mmrBase := env.gdt.base % U64 }))
    else (.arg, env, none)
  | .LDTR =>
    if sizeOk size SZ_MMR then
      (.ok, env, some (.mmr (env.ldt.selector % U16) (env.ldt.base % U64) (env.ldt.limit % U32) (env.ldt.flags % U32)))
    else (.arg, env, none)
  | .TR =>
    if sizeOk size SZ_MMR then
      (.ok, env, some (.mmr (env.tr.selector % U16) (env.tr.base % U64) (env.tr.limit % U32) (env.tr.flags % U32)))
    else (.arg, env, none)
  | .MSR =>
    if sizeOk size SZ_MSR then
      let r := x86_msr_read ext env value.msrRid
      (.ok, r.1, some ({ value with msrValue := r.2 }))
    else (.arg, env, none)
  | .MXCSR =>
    if sizeOk size 4 then (.ok, env, some (.i (env.mxcsr % U32))) else (.arg, env, none)
  | .XMMHI i =>
    if sizeOk size 16 then
      (.ok, env, some ({ value with q0 := (env.xmm_regs (8 + i.val)).1 % U64, q1 := (env.xmm_regs (8 + i.val)).2 % U64 }))
    else (.arg, env, none)
  | .FS_BASE =>
    if sizeOk size 8 then (.ok, env, some (.i ((env.segs R_FS).base % U64))) else (.arg, env, none)
  | .GS_BASE =>
    if sizeOk size 8 then (.ok, env, some (.i ((env.segs R_GS).base % U64))) else (.arg, env, none)
  | _ => (.arg, env, none)

/-- Single-register read accessor of qemu/target/i386/unicorn.c. -/
def reg_read (ext : Externals) (env : CPUX86State) (regid : UcX86Reg) (value : RegVal)
    (size : Option Nat) (mode : UcMode) : UcErr × CPUX86State × Option RegVal :=
  match reg_read_common env regid value size with
  | some r => r
  | none =>
    match mode with
    | .m16 => reg_read_16 ext env regid value size
    | .m32 => reg_read_32 ext env regid value size
    | .m64 => reg_read_64 ext env regid value size

/-- One element of a batch write: identifier, buffer value, declared
size. -/
def WItem := UcX86Reg × RegVal × Option Nat

/-- Batch write protocol `reg_write_batch`: single-register accessor in
list order, first error stops the batch, earlier effects stay committed;
the accumulated PC-dirty flag is threaded through (`int *setpc`). -/
def reg_write_batch (ext : Externals) (env : CPUX86State) (items : List WItem)
    (mode : UcMode) (setpc : Bool) : UcErr × CPUX86State × Bool :=
  match items with
  | [] => (.ok, env, setpc)
  | (r, v, s) :: rest =>
    let res := reg_write ext env r v s mode
    if res.1 = .ok then reg_write_batch ext res.2.1 rest mode (setpc || res.2.2)
    else (res.1, res.2.1, setpc || res.2.2)

/-- Batch read protocol `reg_read_batch`: single-register accessor in
list order, first error stops the batch.  The state is threaded because
the MSR read path mutates and restores borrowed registers. -/
def reg_read_batch (ext : Externals) (env : CPUX86State) (items : List WItem)
    (mode : UcMode) : UcErr × CPUX86State × List RegVal :=
  match items with
  | [] => (.ok, env, [])
  | (r, v, s) :: rest =>
    let res := reg_read ext env r v s mode
    if res.1 = .ok then
      let rres := reg_read_batch ext res.2.1 rest mode
      (rres.1, rres.2.1, (res.2.2.getD v) :: rres.2.2)
    else (res.1, res.2.1, [])

/-- The live x86 engine handle: the CPU state, the execution mode and
the feedback channel (quit_request plus the count of
abandon-current-translated-unit requests raised through
break_translation_loop). -/
structure Uc where
  env : CPUX86State
  mode : UcMode
  quit_request : Bool
  abort_requests : Nat

/-- Modelled from the spec: break_translation_loop raises one
execution-abort request to the owning engine. -/
def break_translation_loop (uc : Uc) : Uc :=
  { uc with abort_requests := uc.abort_requests + 1 }

/-- Live write entry point `x86_reg_write`: run the batch against the
live state; on success, if any element dirtied the PC, set quit_request
and raise exactly one abort request. -/
def x86_reg_write (ext : Externals) (uc : Uc) (items : List WItem) : UcErr × Uc :=
  let res := reg_write_batch ext uc.env items uc.mode false
  if res.1 ≠ .ok then (res.1, { uc with env := res.2.1 })
  else if res.2.2 then
    (.ok, break_translation_loop { uc with env := res.2.1, quit_request := true })
  else (.ok, { uc with env := res.2.1 })

/-- Live read entry point `x86_reg_read`. -/
def x86_reg_read (ext : Externals) (uc : Uc) (items : List WItem) :
    UcErr × Uc × List RegVal :=
  let res := reg_read_batch ext uc.env items uc.mode
  (res.1, { uc with env := res.2.1 }, res.2.2)

/-- Snapshot write entry point `x86_context_reg_write`: same batch over
the detached record with its captured mode; the local setpc flag is
discarded and no abort request is ever raised, so the raised-request
count of the result is zero by construction. -/
def x86_context_reg_write (ext : Externals) (env : CPUX86State) (mode : UcMode)
    (items : List WItem) : UcErr × CPUX86State × Nat :=
  let res := reg_write_batch ext env items mode false
  (res.1, res.2.1, 0)

/-- Snapshot read entry point `x86_context_reg_read`. -/
def x86_context_reg_read (ext : Externals) (env : CPUX86State) (mode : UcMode)
    (items : List WItem) : UcErr × CPUX86State × List RegVal :=
  reg_read_batch ext env items mode

/-- The program-counter identifiers: exactly the writes that set the
PC-dirty flag. -/
def isPCreg (r : UcX86Reg) : Prop :=
  r = .EIP ∨ r = .IP ∨ r = .RIP

/-- State after folding a list of writes over the single-register
accessor, keeping only the state (the pure prefix semantics the batch
protocol is compared against). -/
def writeFold (ext : Externals) (mode : UcMode) (env : CPUX86State) (items : List WItem) :
    CPUX86State :=
  items.foldl (fun e it => (reg_write ext e it.1 it.2.1 it.2.2 mode).2.1) env

/-- Padding element for out-of-range batch indices. -/
def wDflt : WItem :=
  (.invalid 0, RegVal.zero, none)

/-- Error code of batch element k when the elements before it have been
applied in order. -/
def errAt (ext : Externals) (mode : UcMode) (env : CPUX86State) (items : List WItem)
    (k : Nat) : UcErr :=
  (reg_write ext (writeFold ext mode env (items.take k)) (items.getD k wDflt).1
    (items.getD k wDflt).2.1 (items.getD k wDflt).2.2 mode).1

/-- The four narrow sub-register write transforms of the claim: low
byte, high byte, low word, low dword. -/
inductive ViewKind where
  | byteL
  | byteH
  | word
  | dword
deriving DecidableEq

/-- The write macro belonging to each narrow view. -/
def applyView : ViewKind → Nat → Nat → Nat
  | .byteL, o, v => WRITE_BYTE_L o v
  | .byteH, o, v => WRITE_BYTE_H o v
  | .word, o, v => WRITE_WORD o v
  | .dword, o, v => WRITE_DWORD o v

/-- What a narrow write must do to the backing slot: the targeted bytes
carry the written value and every non-targeted bit of the slot is
unchanged (stated through the div/mod decomposition of the slot). -/
def viewFrame : ViewKind → Nat → Nat → Nat → Prop
  | .byteL, o, v, n => n % U8 = v % U8 ∧ n / U8 = o / U8
  | .byteH, o, v, n => n % U8 = o % U8 ∧ n / U8 % U8 = v % U8 ∧ n / U16 = o / U16
  | .word, o, v, n => n % U16 = v % U16 ∧ n / U16 = o / U16
  | .dword, o, v, n => n % U32 = v % U32 ∧ n / U32 = o / U32

/-- One narrow sub-register view: the mode it is valid in, its
identifier, the index of the backing general-register slot and the
transform kind. -/
structure NarrowView where
  mode : UcMode
  reg : UcX86Reg
  slot : Nat
  kind : ViewKind

set_option maxHeartbeats 1600000 in
/-- Every narrow general-purpose sub-register write view of the accessor:
the 16 word/byte views of the 32-bit switch reached from 16-bit mode,
the same 16 in 32-bit mode, and the 52 dword/word/byte views of the
64-bit switch. -/
def gprNarrowViews : List NarrowView :=
  [⟨.m16, .AX, R_EAX, .word⟩, ⟨.m16, .AH, R_EAX, .byteH⟩, ⟨.m16, .AL, R_EAX, .byteL⟩,
   ⟨.m16, .BX, R_EBX, .word⟩, ⟨.m16, .BH, R_EBX, .byteH⟩, ⟨.m16, .BL, R_EBX, .byteL⟩,
   ⟨.m16, .CX, R_ECX, .word⟩, ⟨.m16, .CH, R_ECX, .byteH⟩, ⟨.m16, .CL, R_ECX, .byteL⟩,
   ⟨.m16, .DX, R_EDX, .word⟩, ⟨.m16, .DH, R_EDX, .byteH⟩, ⟨.m16, .DL, R_EDX, .byteL⟩,
   ⟨.m16, .SP, R_ESP, .word⟩, ⟨.m16, .BP, R_EBP, .word⟩,
   ⟨.m16, .SI, R_ESI, .word⟩, ⟨.m16, .DI, R_EDI, .word⟩,
   ⟨.m32, .AX, R_EAX, .word⟩, ⟨.m32, .AH, R_EAX, .byteH⟩, ⟨.m32, .AL, R_EAX, .byteL⟩,
   ⟨.m32, .BX, R_EBX, .word⟩, ⟨.m32, .BH, R_EBX, .byteH⟩, ⟨.m32, .BL, R_EBX, .byteL⟩,
   ⟨.m32, .CX, R_ECX, .word⟩, ⟨.m32, .CH, R_ECX, .byteH⟩, ⟨.m32, .CL, R_ECX, .byteL⟩,
   ⟨.m32, .DX, R_EDX, .word⟩, ⟨.m32, .DH, R_EDX, .byteH⟩, ⟨.m32, .DL, R_EDX, .byteL⟩,
   ⟨.m32, .SP, R_ESP, .word⟩, ⟨.m32, .BP, R_EBP, .word⟩,
   ⟨.m32, .SI, R_ESI, .word⟩, ⟨.m32, .DI, R_EDI, .word⟩,
   ⟨.m64, .EAX, R_EAX, .dword⟩, ⟨.m64, .AX, R_EAX, .word⟩,
   ⟨.m64, .AH, R_EAX, .byteH⟩, ⟨.m64, .AL, R_EAX, .byteL⟩,
   ⟨.m64, .EBX, R_EBX, .dword⟩, ⟨.m64, .BX, R_EBX, .word⟩,
   ⟨.m64, .BH, R_EBX, .byteH⟩, ⟨.m64, .BL, R_EBX, .byteL⟩,
   ⟨.m64, .ECX, R_ECX, .dword⟩, ⟨.m64, .CX, R_ECX, .word⟩,
   ⟨.m64, .CH, R_ECX, .byteH⟩, ⟨.m64, .CL, R_ECX, .byteL⟩,
   ⟨.m64, .EDX, R_EDX, .dword⟩, ⟨.m64, .DX, R_EDX, .word⟩,
   ⟨.m64, .DH, R_EDX, .byteH⟩, ⟨.m64, .DL, R_EDX, .byteL⟩,
   ⟨.m64, .ESP, R_ESP, .dword⟩, ⟨.m64, .SP, R_ESP, .word⟩, ⟨.m64, .SPL, R_ESP, .byteL⟩,
   ⟨.m64, .EBP, R_EBP, .dword⟩, ⟨.m64, .BP, R_EBP, .word⟩, ⟨.m64, .BPL, R_EBP, .byteL⟩,
   ⟨.m64, .ESI, R_ESI, .dword⟩, ⟨.m64, .SI, R_ESI, .word⟩, ⟨.m64, .SIL, R_ESI, .byteL⟩,
   ⟨.m64, .EDI, R_EDI, .dword⟩, ⟨.m64, .DI, R_EDI, .word⟩, ⟨.m64, .DIL, R_EDI, .byteL⟩,
   ⟨.m64, .R32 0, 8, .dword⟩, ⟨.m64, .R16 0, 8, .word⟩, ⟨.m64, .R8v 0, 8, .byteL⟩,
   ⟨.m64, .R32 1, 9, .dword⟩, ⟨.m64, .R16 1, 9, .word⟩, ⟨.m64, .R8v 1, 9, .byteL⟩,
   ⟨.m64, .R32 2, 10, .dword⟩, ⟨.m64, .R16 2, 10, .word⟩, ⟨.m64, .R8v 2, 10, .byteL⟩,
   ⟨.m64, .R32 3, 11, .dword⟩, ⟨.m64, .R16 3, 11, .word⟩, ⟨.m64, .R8v 3, 11, .byteL⟩,
   ⟨.m64, .R32 4, 12, .dword⟩, ⟨.m64, .R16 4, 12, .word⟩, ⟨.m64, .R8v 4, 12, .byteL⟩,
   ⟨.m64, .R32 5, 13, .dword⟩, ⟨.m64, .R16 5, 13, .word⟩, ⟨.m64, .R8v 5, 13, .byteL⟩,
   ⟨.m64, .R32 6, 14, .dword⟩, ⟨.m64, .R16 6, 14, .word⟩, ⟨.m64, .R8v 6, 14, .byteL⟩,
   ⟨.m64, .R32 7, 15, .dword⟩, ⟨.m64, .R16 7, 15, .word⟩, ⟨.m64, .R8v 7, 15, .byteL⟩]

/-- The per-slot tag classification written exactly as the claim words
it: zero when the empty bit is unset and exponent and mantissa are both
zero; special when the exponent equals the maximum biased exponent,
regardless of mantissa; empty when the empty bit is set; valid for all
remaining slots. -/
def fptagClaimTag (empty : Bool) (exp mant : Nat) : Nat :=
  if empty = false ∧ exp = 0 ∧ mant = 0 then 1
  else if exp = 0x7fff then 2
  else if empty = true then 3
  else 0

/-- The tag word the claim predicts: the 8 two-bit claim tags assembled
positionally. -/
def fptagClaimWord (env : CPUX86State) : Nat :=
  (List.range 8).foldl
    (fun acc i =>
      acc + fptagClaimTag (env.fptags i) ((env.fpregs i).upper &&& 0x7fff) (env.fpregs i).mant * 4 ^ i)
    0

/-- The per-slot tag classification as the specification words it (and
as the code computes it): empty as recorded; zero when exponent and
mantissa are both zero; special when the exponent is zero or all-ones or
the explicit bit is unset; else valid. -/
def fptag_spec_tag (empty : Bool) (exp mant : Nat) : Nat :=
  if empty = true then 3
  else if exp = 0 ∧ mant = 0 then 1
  else if exp = 0 ∨ exp = 0x7fff ∨ mant &&& (1 <<< 63) = 0 then 2
  else 0

/-- Externals fixture whose legality pre-check accepts every selector
and whose MSR micro-operations are inert. -/
def ext0 : Externals :=
  { segCheck := fun _ _ => true, rdmsr := id, wrmsr := id }

/-- Externals fixture whose legality pre-check rejects every selector. -/
def extF : Externals :=
  { segCheck := fun _ _ => false, rdmsr := id, wrmsr := id }

/-- The all-zero x86 state fixture. -/
def env0 : CPUX86State where
  regs := fun _ => 0
  eip := 0
  eflags := 0
  cc_op := 0
  segs := fun _ => ⟨0, 0, 0, 0⟩
  cr := fun _ => 0
  dr := fun _ => 0
  fpregs := fun _ => ⟨0, 0⟩
  fpstt := 0
  fpus := 0
  fpuc := 0
  fptags := fun _ => false
  fpip := 0
  fpcs := 0
  fpdp := 0
  fpds := 0
  fpop := 0
  mxcsr := 0
  xmm_regs := fun _ => (0, 0)
  ymmh_regs := fun _ => (0, 0)
  opmask_regs := fun _ => 0
  zmmh_regs := fun _ => 0
  hi16_zmm_regs := fun _ => 0
  xmm_t0 := 0
  mmx_t0 := 0
  idt := ⟨0, 0, 0, 0⟩
  gdt := ⟨0, 0, 0, 0⟩
  ldt := ⟨0, 0, 0, 0⟩
  tr := ⟨0, 0, 0, 0⟩
  sysenter_cs := 0
  sysenter_esp := 0
  sysenter_eip := 0
  efer := 0
  star := 0
  lstar := 0
  cstar := 0
  fmask := 0
  kernelgsbase := 0
  vm_hsave := 0
  tsc := 0
  tsc_adjust := 0
  tsc_deadline := 0
  mcg_status := 0
  msr_ia32_misc_enable := 0
  msr_ia32_feature_control := 0
  msr_fixed_ctr_ctrl := 0
  msr_global_ctrl := 0
  msr_global_status := 0
  msr_global_ovf_ctrl := 0
  msr_fixed_counters := fun _ => 0
  msr_gp_counters := fun _ => 0
  msr_gp_evtsel := fun _ => 0
  hflags := 0
  features_8000_0001_edx := 0

/-- 16-bit fixture for the set-PC/get-PC round-trip: CS selector 0x8000
(high bit set). -/
def envC4 : CPUX86State :=
  { env0 with segs := Function.update env0.segs R_CS ⟨0x8000, 0, 0, 0⟩ }

/-- Fixture for the tag-word read: physical slot 0 holds exponent 0 with
mantissa 1 (a denormal) and its empty bit is unset; slots 1..7 are
empty. -/
def envC7 : CPUX86State :=
  { env0 with
    fptags := fun i => i != 0
    fpregs := Function.update env0.fpregs 0 ⟨1, 0⟩ }

/-- Fixture for reset: floating point data register 0 holds mantissa 7. -/
def envC9 : CPUX86State :=
  { env0 with fpregs := Function.update env0.fpregs 0 ⟨7, 0⟩ }

/-- The (mode, segment identifier, segment index) triples whose
selector write does run the legality pre-check: all six general-purpose
segments in 32-bit mode, only CS in 16-bit mode (it falls through to
the 32-bit switch), and only FS and GS in 64-bit mode. -/
def segCheckedPairs : List (UcMode × UcX86Reg × Nat) :=
  [(.m16, .CS, R_CS),
   (.m32, .CS, R_CS), (.m32, .DS, R_DS), (.m32, .SS, R_SS),
   (.m32, .ES, R_ES), (.m32, .FS, R_FS), (.m32, .GS, R_GS),
   (.m64, .FS, R_FS), (.m64, .GS, R_GS)]

/-- Live engine fixture in 32-bit mode over the all-zero state. -/
def uc0 : Uc :=
  { env := env0, mode := .m32, quit_request := false, abort_requests := 0 }

/-- Batch fixture: element 0 is a valid low-byte write, element 1 fails
the width check (declared size 3 for a one-byte register), element 2
would be valid but must not be applied. -/
def itemsC2 : List WItem :=
  [(.AL, .i 5, none), (.AL, .i 7, some 3), (.AX, .i 9, none)]

end X86

namespace SPARC

open Unicorn

/-- The all-zero SPARC state fixture. -/
def senv0 : CPUSPARCState :=
  { gregs := fun _ => 0, regwptr := fun _ => 0, fpr := fun _ => 0, pc := 0, npc := 0 }

/-- SPARC fixture with a recognizable register window: window slot j
holds 100 + j. -/
def senv1 : CPUSPARCState :=
  { senv0 with regwptr := fun j => 100 + j }

/-- Padding element for out-of-range SPARC batch indices. -/
def sparcItemDflt : SparcItem :=
  (.unk 0, 0, none)

/-- State after folding a list of SPARC writes over the single-register
accessor, keeping only the state (the pure prefix semantics the SPARC
batch writer is compared against). -/
def sparcWriteFold (env : CPUSPARCState) (items : List SparcItem) : CPUSPARCState :=
  items.foldl (fun e it => (reg_write e it.1 it.2.1 it.2.2).2) env

/-- Error code of SPARC batch element k when the elements before it have
been applied in order. -/
def sparcErrAt (env : CPUSPARCState) (items : List SparcItem) (k : Nat) : UcErr :=
  (reg_write (sparcWriteFold env (items.take k)) (items.getD k sparcItemDflt).1
    (items.getD k sparcItemDflt).2.1 (items.getD k sparcItemDflt).2.2).1

/-- Live SPARC engine fixture over the all-zero state. -/
def suc0 : SparcUc :=
  { env := senv0, quit_request := false, abort_requests := 0 }

/-- SPARC batch fixture: element 0 is a valid write, element 1 fails the
width check (declared size 3 for a 4-byte register), element 2 would be
valid but must not be applied. -/
def sitemsC2 : List SparcItem :=
  [(.G 0, 5, none), (.G 1, 7, some 3), (.O 0, 9, none)]

end SPARC

namespace X86

open Unicorn

/-- Each of the four narrow write transforms satisfies its byte frame
condition. -/
theorem viewFrame_applyView (k : ViewKind) (o v : Nat) :
    viewFrame k o v (applyView k o v) := by
  cases k <;>
    simp [viewFrame, applyView, WRITE_BYTE_L, WRITE_BYTE_H, WRITE_WORD, WRITE_DWORD,
      U8, U16, U32] <;>
    omega

set_option maxHeartbeats 12000000 in
/-- Structural facts of the single-register write accessor, by case
analysis over every identifier and mode: an error result leaves the
state untouched, the PC-dirty flag is set only by the three
program-counter identifiers, and any successful write to one of them
does set it. -/
theorem reg_write_props (ext : Externals) (env : CPUX86State) (regid : UcX86Reg)
    (value : RegVal) (size : Option Nat) (mode : UcMode) :
    ((reg_write ext env regid value size mode).1 ≠ .ok →
      (reg_write ext env regid value size mode).2.1 = env) ∧
    ((reg_write ext env regid value size mode).2.2 = true → isPCreg regid) ∧
    (isPCreg regid → (reg_write ext env regid value size mode).1 = .ok →
      (reg_write ext env regid value size mode).2.2 = true) := by
  cases regid <;> cases mode <;>
    simp [reg_write, reg_write_common, reg_write_16, reg_write_32, reg_write_64, isPCreg] <;>
    split_ifs <;> simp_all

/-- The error of batch element zero is the error of its single write. -/
theorem errAt_zero (ext : Externals) (mode : UcMode) (env : CPUX86State) (it : WItem)
    (rest : List WItem) :
    errAt ext mode env (it :: rest) 0 = (reg_write ext env it.1 it.2.1 it.2.2 mode).1 := rfl

/-- The error of batch element k + 1 is the error of element k of the
tail, started from the state after the head write. -/
theorem errAt_succ (ext : Externals) (mode : UcMode) (env : CPUX86State) (it : WItem)
    (rest : List WItem) (k : Nat) :
    errAt ext mode env (it :: rest) (k + 1) =
      errAt ext mode (reg_write ext env it.1 it.2.1 it.2.2 mode).2.1 rest k := rfl

/-- Unfolding step of the write prefix fold. -/
theorem writeFold_cons (ext : Externals) (mode : UcMode) (env : CPUX86State) (it : WItem)
    (rest : List WItem) :
    writeFold ext mode env (it :: rest) =
      writeFold ext mode (reg_write ext env it.1 it.2.1 it.2.2 mode).2.1 rest := rfl

/-- The batch write protocol against the element-wise semantics, for any
initial PC-dirty flag: if element j is the first failing element the
batch returns the error of element j with exactly the first j elements
applied; if no element fails the batch returns success with all
elements applied. -/
theorem reg_write_batch_spec (ext : Externals) (mode : UcMode) (items : List WItem) :
    ∀ (env : CPUX86State) (sp : Bool),
    (∀ j, j < items.length →
      (∀ k, k < j → errAt ext mode env items k = .ok) →
      errAt ext mode env items j ≠ .ok →
      (reg_write_batch ext env items mode sp).1 = errAt ext mode env items j ∧
      (reg_write_batch ext env items mode sp).2.1 = writeFold ext mode env (items.take j)) ∧
    ((∀ k, k < items.length → errAt ext mode env items k = .ok) →
      (reg_write_batch ext env items mode sp).1 = .ok ∧
      (reg_write_batch ext env items mode sp).2.1 = writeFold ext mode env items) := by
  induction items with
  | nil =>
    intro env sp
    exact ⟨fun j hj => absurd hj (by simp), fun _ => ⟨rfl, rfl⟩⟩
  | cons it rest ih =>
    intro env sp
    obtain ⟨r, v, s⟩ := it
    by_cases hok : (reg_write ext env r v s mode).1 = .ok
    · constructor
      · intro j hj hpre hfail
        match j with
        | 0 => exact absurd (errAt_zero ext mode env (r, v, s) rest ▸ hok) hfail
        | j' + 1 =>
          rw [errAt_succ] at hfail
          have h1 := (ih (reg_write ext env r v s mode).2.1
              (sp || (reg_write ext env r v s mode).2.2)).1 j'
            (by simpa using hj)
            (fun k hk => by
              have := hpre (k + 1) (by omega)
              rwa [errAt_succ] at this)
            hfail
          rw [errAt_succ, List.take_succ_cons, writeFold_cons]
          simpa [reg_write_batch, hok] using h1
      · intro hall
        have h1 := (ih (reg_write ext env r v s mode).2.1
            (sp || (reg_write ext env r v s mode).2.2)).2
          (fun k hk => by
            have := hall (k + 1) (by simpa using hk)
            rwa [errAt_succ] at this)
        rw [writeFold_cons]
        simpa [reg_write_batch, hok] using h1
    · constructor
      · intro j hj hpre hfail
        match j with
        | 0 =>
          have hframe := (reg_write_props ext env r v s mode).1 hok
          refine ⟨?_, ?_⟩
          · rw [errAt_zero]
            simp [reg_write_batch, hok]
          · simp only [List.take_zero]
            show (reg_write_batch ext env ((r, v, s) :: rest) mode sp).2.1 = writeFold ext mode env []
            simp [reg_write_batch, hok, hframe, writeFold]
        | j' + 1 =>
          exact absurd ((errAt_zero ext mode env (r, v, s) rest) ▸ hpre 0 (by omega)) hok
      · intro hall
        exact absurd ((errAt_zero ext mode env (r, v, s) rest) ▸ hall 0 (by simp)) hok

/-- The per-slot tag classification is a two-bit value. -/
theorem fptag_spec_tag_lt (e : Bool) (x m : Nat) : fptag_spec_tag e x m < 4 := by
  unfold fptag_spec_tag
  split_ifs <;> omega

/-- Shifting two bits in and or-ing a two-bit value is base-4
accumulation. -/
theorem shiftl2_or (a t : Nat) (ht : t < 4) : a <<< 2 ||| t = 4 * a + t := by
  have h := Nat.mul_add_lt_is_or (i := 2) (b := t) (by simpa using ht) a
  rw [Nat.shiftLeft_eq, Nat.mul_comm, ← h]

/-- One FPTAG loop iteration accumulates the classification of the slot
in base 4. -/
theorem fptag_classify_eq (env : CPUX86State) (acc i : Nat) :
    fptag_classify env acc i =
      4 * acc + fptag_spec_tag (env.fptags i) ((env.fpregs i).upper &&& 0x7fff)
        (env.fpregs i).mant := by
  unfold fptag_classify fptag_spec_tag
  rw [show ((1 : Nat) <<< 63) = 9223372036854775808 from rfl]
  cases h : env.fptags i with
  | true => simp [h, shiftl2_or]
  | false =>
    by_cases hz : (env.fpregs i).upper &&& 0x7fff = 0 ∧ (env.fpregs i).mant = 0
    · simp [h, hz, shiftl2_or]
    · by_cases hs : (env.fpregs i).upper &&& 0x7fff = 0 ∨
          (env.fpregs i).upper &&& 0x7fff = 0x7fff ∨
          (env.fpregs i).mant &&& 9223372036854775808 = 0
      · simp [h, hz, hs, shiftl2_or]
      · have h0 : acc <<< 2 = 4 * acc + 0 := by simpa using shiftl2_or acc 0 (by omega)
        simp [h, hz, hs, h0]

/-- The synthesized tag word, written positionally: the classifications
of slots 7 down to 0 accumulated in base 4. -/
theorem x86_fptag_eq (env : CPUX86State) :
    x86_fptag env =
      4 * (4 * (4 * (4 * (4 * (4 * (4 * (4 * 0 +
        fptag_spec_tag (env.fptags 7) ((env.fpregs 7).upper &&& 0x7fff) (env.fpregs 7).mant) +
        fptag_spec_tag (env.fptags 6) ((env.fpregs 6).upper &&& 0x7fff) (env.fpregs 6).mant) +
        fptag_spec_tag (env.fptags 5) ((env.fpregs 5).upper &&& 0x7fff) (env.fpregs 5).mant) +
        fptag_spec_tag (env.fptags 4) ((env.fpregs 4).upper &&& 0x7fff) (env.fpregs 4).mant) +
        fptag_spec_tag (env.fptags 3) ((env.fpregs 3).upper &&& 0x7fff) (env.fpregs 3).mant) +
        fptag_spec_tag (env.fptags 2) ((env.fpregs 2).upper &&& 0x7fff) (env.fpregs 2).mant) +
        fptag_spec_tag (env.fptags 1) ((env.fpregs 1).upper &&& 0x7fff) (env.fpregs 1).mant) +
        fptag_spec_tag (env.fptags 0) ((env.fpregs 0).upper &&& 0x7fff) (env.fpregs 0).mant := by
  simp only [x86_fptag, List.foldl, fptag_classify_eq]

/-- Each two-bit field of the synthesized tag word is the classification
of its physical slot. -/
theorem x86_fptag_extract (env : CPUX86State) (i : Nat) (h : i < 8) :
    x86_fptag env / 4 ^ i % 4 =
      fptag_spec_tag (env.fptags i) ((env.fpregs i).upper &&& 0x7fff) (env.fpregs i).mant := by
  have e := x86_fptag_eq env
  have b0 := fptag_spec_tag_lt (env.fptags 0) ((env.fpregs 0).upper &&& 0x7fff) (env.fpregs 0).mant
  have b1 := fptag_spec_tag_lt (env.fptags 1) ((env.fpregs 1).upper &&& 0x7fff) (env.fpregs 1).mant
  have b2 := fptag_spec_tag_lt (env.fptags 2) ((env.fpregs 2).upper &&& 0x7fff) (env.fpregs 2).mant
  have b3 := fptag_spec_tag_lt (env.fptags 3) ((env.fpregs 3).upper &&& 0x7fff) (env.fpregs 3).mant
  have b4 := fptag_spec_tag_lt (env.fptags 4) ((env.fpregs 4).upper &&& 0x7fff) (env.fpregs 4).mant
  have b5 := fptag_spec_tag_lt (env.fptags 5) ((env.fpregs 5).upper &&& 0x7fff) (env.fpregs 5).mant
  have b6 := fptag_spec_tag_lt (env.fptags 6) ((env.fpregs 6).upper &&& 0x7fff) (env.fpregs 6).mant
  have b7 := fptag_spec_tag_lt (env.fptags 7) ((env.fpregs 7).upper &&& 0x7fff) (env.fpregs 7).mant
  interval_cases i <;> rw [e] <;> norm_num <;> omega

end X86

namespace SPARC

open Unicorn

/-- A failing SPARC single-register write leaves the state untouched. -/
theorem sparc_reg_write_err_frame (env : CPUSPARCState) (regid : SparcReg) (v : Nat)
    (s : Option Nat) :
    (reg_write env regid v s).1 ≠ .ok → (reg_write env regid v s).2 = env := by
  cases regid <;> simp [reg_write] <;> split_ifs <;> simp_all

/-- The error of SPARC batch element zero is the error of its single
write. -/
theorem sErrAt_zero (env : CPUSPARCState) (it : SparcItem) (rest : List SparcItem) :
    sparcErrAt env (it :: rest) 0 = (reg_write env it.1 it.2.1 it.2.2).1 := rfl

/-- The error of SPARC batch element k + 1 is the error of element k of
the tail, started from the state after the head write. -/
theorem sErrAt_succ (env : CPUSPARCState) (it : SparcItem) (rest : List SparcItem)
    (k : Nat) :
    sparcErrAt env (it :: rest) (k + 1) =
      sparcErrAt (reg_write env it.1 it.2.1 it.2.2).2 rest k := rfl

/-- Unfolding step of the SPARC write prefix fold. -/
theorem sparcWriteFold_cons (env : CPUSPARCState) (it : SparcItem)
    (rest : List SparcItem) :
    sparcWriteFold env (it :: rest) =
      sparcWriteFold (reg_write env it.1 it.2.1 it.2.2).2 rest := rfl

/-- The SPARC batch write entry point against the element-wise
semantics, for any live handle: if element j is the first failing
element the batch returns the error of element j with exactly the first
j elements applied; if no element fails the batch returns success with
all elements applied.  The PC-dirty feedback raised along the way only
touches the abort channel, never the register state. -/
theorem sparc_reg_write_batch_spec (items : List SparcItem) :
    ∀ (uc : SparcUc),
    (∀ j, j < items.length →
      (∀ k, k < j → sparcErrAt uc.env items k = .ok) →
      sparcErrAt uc.env items j ≠ .ok →
      (sparc_reg_write uc items).1 = sparcErrAt uc.env items j ∧
      (sparc_reg_write uc items).2.env = sparcWriteFold uc.env (items.take j)) ∧
    ((∀ k, k < items.length → sparcErrAt uc.env items k = .ok) →
      (sparc_reg_write uc items).1 = .ok ∧
      (sparc_reg_write uc items).2.env = sparcWriteFold uc.env items) := by
  induction items with
  | nil =>
    intro uc
    exact ⟨fun j hj => absurd hj (by simp), fun _ => ⟨rfl, rfl⟩⟩
  | cons it rest ih =>
    intro uc
    obtain ⟨r, v, s⟩ := it
    rcases h : reg_write uc.env r v s with ⟨e, env'⟩
    have henv2 : (reg_write uc.env r v s).2 = env' := by rw [h]
    cases e with
    | ok =>
      have hb : ∃ uc2 : SparcUc, uc2.env = env' ∧
          sparc_reg_write uc ((r, v, s) :: rest) = sparc_reg_write uc2 rest := by
        by_cases hpc : r = .PC
        · exact ⟨break_translation_loop { uc with env := env', quit_request := true },
            rfl, by subst hpc; simp [sparc_reg_write, h]⟩
        · exact ⟨{ uc with env := env' }, rfl, by simp [sparc_reg_write, h, hpc]⟩
      obtain ⟨uc2, huc2, hbatch⟩ := hb
      constructor
      · intro j hj hpre hfail
        match j with
        | 0 =>
          rw [sErrAt_zero] at hfail
          simp [h] at hfail
        | j' + 1 =>
          rw [sErrAt_succ, henv2] at hfail
          have h1 := (ih uc2).1 j' (by simpa using hj)
            (fun k hk => by
              have hx := hpre (k + 1) (by omega)
              rw [sErrAt_succ, henv2] at hx
              rw [huc2]
              exact hx)
            (by rw [huc2]; exact hfail)
          rw [huc2] at h1
          rw [hbatch, sErrAt_succ, henv2, List.take_succ_cons, sparcWriteFold_cons, henv2]
          exact h1
      · intro hall
        have h1 := (ih uc2).2
          (fun k hk => by
            have hx := hall (k + 1) (by simpa using hk)
            rw [sErrAt_succ, henv2] at hx
            rw [huc2]
            exact hx)
        rw [huc2] at h1
        rw [hbatch, sparcWriteFold_cons, henv2]
        exact h1
    | arg =>
      have hframe : env' = uc.env := by
        have hf := sparc_reg_write_err_frame uc.env r v s (by simp [h])
        rwa [henv2] at hf
      have hb1 : (sparc_reg_write uc ((r, v, s) :: rest)).1 =
          (reg_write uc.env r v s).1 := by
        simp [sparc_reg_write, h]
      have hb2 : (sparc_reg_write uc ((r, v, s) :: rest)).2.env = env' := by
        simp [sparc_reg_write, h]
      constructor
      · intro j hj hpre hfail
        match j with
        | 0 =>
          refine ⟨?_, ?_⟩
          · rw [hb1, sErrAt_zero]
          · rw [hb2, hframe]
            rfl
        | j' + 1 =>
          have h0 := hpre 0 (by omega)
          rw [sErrAt_zero, h] at h0
          simp at h0
      · intro hall
        have h0 := hall 0 (by simp)
        rw [sErrAt_zero, h] at h0
        simp at h0
    | exception =>
      have hframe : env' = uc.env := by
        have hf := sparc_reg_write_err_frame uc.env r v s (by simp [h])
        rwa [henv2] at hf
      have hb1 : (sparc_reg_write uc ((r, v, s) :: rest)).1 =
          (reg_write uc.env r v s).1 := by
        simp [sparc_reg_write, h]
      have hb2 : (sparc_reg_write uc ((r, v, s) :: rest)).2.env = env' := by
        simp [sparc_reg_write, h]
      constructor
      · intro j hj hpre hfail
        match j with
        | 0 =>
          refine ⟨?_, ?_⟩
          · rw [hb1, sErrAt_zero]
          · rw [hb2, hframe]
            rfl
        | j' + 1 =>
          have h0 := hpre 0 (by omega)
          rw [sErrAt_zero, h] at h0
          simp at h0
      · intro hall
        have h0 := hall 0 (by simp)
        rw [sErrAt_zero, h] at h0
        simp at h0

end SPARC

open Unicorn

/-- C1: the claim states that every single-register read or write with a
declared buffer size verifies the size against the semantic width before
touching the backing store, failing with the argument-validity error and
performing no copy on mismatch, for every identifier on both targets.
The SPARC reg_read branch for I0..I7 omits the width check: with a
declared size of 1 byte (the width is 4) the copy into the caller buffer
is still performed and the call reports UC_ERR_ARG — the call also
reports UC_ERR_ARG with the correct size 4, after having copied.  The
sibling O0..O7 branch shows the intended behavior: mismatch is rejected
with no copy. -/
theorem sparc_in_register_read_missing_width_check :
    SPARC.reg_read SPARC.senv1 (.I 0) (some 1) = (.arg, some 116) ∧
    SPARC.reg_read SPARC.senv1 (.I 0) (some 4) = (.arg, some 116) ∧
    SPARC.reg_read SPARC.senv1 (.O 0) (some 1) = (.arg, none) := by
  refine ⟨by decide, by decide, by decide⟩

/-- C2: a batch write of K elements evaluated in list order, on both
targets: if element j is the first failing element, elements [0, j)
remain committed, elements [j, K) have no effect (the returned state is
exactly the fold of the first j single writes), and the batch returns
the error of element j; if no element fails, the batch succeeds with all
K elements applied.  The first two conjuncts cover the x86
reg_write_batch, the third covers the SPARC sparc_reg_write entry
point. -/
theorem batch_write_first_failure_semantics (ext : X86.Externals) (mode : UcMode)
    (env : X86.CPUX86State) (items : List X86.WItem) :
    (∀ j, j < items.length →
      (∀ k, k < j → X86.errAt ext mode env items k = .ok) →
      X86.errAt ext mode env items j ≠ .ok →
      (X86.reg_write_batch ext env items mode false).1 = X86.errAt ext mode env items j ∧
      (X86.reg_write_batch ext env items mode false).2.1 =
        X86.writeFold ext mode env (items.take j)) ∧
    ((∀ k, k < items.length → X86.errAt ext mode env items k = .ok) →
      (X86.reg_write_batch ext env items mode false).1 = .ok ∧
      (X86.reg_write_batch ext env items mode false).2.1 =
        X86.writeFold ext mode env items) ∧
    (∀ (suc : SPARC.SparcUc) (sitems : List SPARC.SparcItem),
      (∀ j, j < sitems.length →
        (∀ k, k < j → SPARC.sparcErrAt suc.env sitems k = .ok) →
        SPARC.sparcErrAt suc.env sitems j ≠ .ok →
        (SPARC.sparc_reg_write suc sitems).1 = SPARC.sparcErrAt suc.env sitems j ∧
        (SPARC.sparc_reg_write suc sitems).2.env =
          SPARC.sparcWriteFold suc.env (sitems.take j)) ∧
      ((∀ k, k < sitems.length → SPARC.sparcErrAt suc.env sitems k = .ok) →
        (SPARC.sparc_reg_write suc sitems).1 = .ok ∧
        (SPARC.sparc_reg_write suc sitems).2.env =
          SPARC.sparcWriteFold suc.env sitems)) :=
  ⟨(X86.reg_write_batch_spec ext mode items env false).1,
   (X86.reg_write_batch_spec ext mode items env false).2,
   fun suc sitems => SPARC.sparc_reg_write_batch_spec sitems suc⟩

/-- Witness for C2: on concrete three-element batches whose element 1
fails the width check — on each target — the batch returns the error of
element 1 and the state is the fold of element 0 alone. -/
theorem batch_write_first_failure_semantics_witness :
    ((1 < X86.itemsC2.length ∧
      (∀ k, k < 1 → X86.errAt X86.ext0 .m32 X86.env0 X86.itemsC2 k = .ok) ∧
      X86.errAt X86.ext0 .m32 X86.env0 X86.itemsC2 1 ≠ .ok) ∧
     ((X86.reg_write_batch X86.ext0 X86.env0 X86.itemsC2 .m32 false).1 =
        X86.errAt X86.ext0 .m32 X86.env0 X86.itemsC2 1 ∧
      (X86.reg_write_batch X86.ext0 X86.env0 X86.itemsC2 .m32 false).2.1 =
        X86.writeFold X86.ext0 .m32 X86.env0 (X86.itemsC2.take 1))) ∧
    ((1 < SPARC.sitemsC2.length ∧
      (∀ k, k < 1 → SPARC.sparcErrAt SPARC.suc0.env SPARC.sitemsC2 k = .ok) ∧
      SPARC.sparcErrAt SPARC.suc0.env SPARC.sitemsC2 1 ≠ .ok) ∧
     ((SPARC.sparc_reg_write SPARC.suc0 SPARC.sitemsC2).1 =
        SPARC.sparcErrAt SPARC.suc0.env SPARC.sitemsC2 1 ∧
      (SPARC.sparc_reg_write SPARC.suc0 SPARC.sitemsC2).2.env =
        SPARC.sparcWriteFold SPARC.suc0.env (SPARC.sitemsC2.take 1))) :=
  ⟨⟨⟨by decide, by decide, by decide⟩,
    (batch_write_first_failure_semantics X86.ext0 .m32 X86.env0 X86.itemsC2).1 1 (by decide)
      (by decide) (by decide)⟩,
   ⟨⟨by decide, by decide, by decide⟩,
    ((batch_write_first_failure_semantics X86.ext0 .m32 X86.env0 X86.itemsC2).2.2
        SPARC.suc0 SPARC.sitemsC2).1 1 (by decide) (by decide) (by decide)⟩⟩

/-- C3: a single-register write call on the live CPU raises exactly one
abandon-current-translated-unit request when it writes a program-counter
identifier successfully, raises none for a non-PC identifier or a failed
write, and the same write on a detached snapshot context raises none;
likewise on the SPARC target. -/
theorem pc_write_raises_single_abort_request (ext : X86.Externals) (uc : X86.Uc)
    (r : X86.UcX86Reg) (v : X86.RegVal) (s : Option Nat) :
    (X86.isPCreg r → (X86.x86_reg_write ext uc [(r, v, s)]).1 = .ok →
      (X86.x86_reg_write ext uc [(r, v, s)]).2.abort_requests = uc.abort_requests + 1) ∧
    (¬ X86.isPCreg r →
      (X86.x86_reg_write ext uc [(r, v, s)]).2.abort_requests = uc.abort_requests) ∧
    ((X86.x86_reg_write ext uc [(r, v, s)]).1 ≠ .ok →
      (X86.x86_reg_write ext uc [(r, v, s)]).2.abort_requests = uc.abort_requests) ∧
    (∀ (cenv : X86.CPUX86State) (cmode : UcMode),
      (X86.x86_context_reg_write ext cenv cmode [(r, v, s)]).2.2 = 0) ∧
    (∀ (suc : SPARC.SparcUc) (sv : Nat) (ss : Option Nat),
      ((SPARC.sparc_reg_write suc [(.PC, sv, ss)]).1 = .ok →
        (SPARC.sparc_reg_write suc [(.PC, sv, ss)]).2.abort_requests =
          suc.abort_requests + 1) ∧
      (∀ (sr : SPARC.SparcReg), sr ≠ .PC →
        (SPARC.sparc_reg_write suc [(sr, sv, ss)]).2.abort_requests = suc.abort_requests) ∧
      (∀ (senv : SPARC.CPUSPARCState),
        (SPARC.sparc_context_reg_write senv [(.PC, sv, ss)]).2.2 = 0)) := by
  obtain ⟨hframe, hsp1, hsp2⟩ := X86.reg_write_props ext uc.env r v s uc.mode
  refine ⟨?_, ?_, ?_, ?_, ?_⟩
  · intro hpc hok
    by_cases hr : (X86.reg_write ext uc.env r v s uc.mode).1 = .ok
    · have hspc := hsp2 hpc hr
      simp [X86.x86_reg_write, X86.reg_write_batch, hr, hspc, X86.break_translation_loop]
    · exfalso
      apply hr
      simp [X86.x86_reg_write, X86.reg_write_batch, hr] at hok
  · intro hpc
    have hspc : (X86.reg_write ext uc.env r v s uc.mode).2.2 = false := by
      cases h : (X86.reg_write ext uc.env r v s uc.mode).2.2
      · rfl
      · exact absurd (hsp1 h) hpc
    by_cases hr : (X86.reg_write ext uc.env r v s uc.mode).1 = .ok <;>
      simp [X86.x86_reg_write, X86.reg_write_batch, hr, hspc, X86.break_translation_loop]
  · intro herr
    by_cases hr : (X86.reg_write ext uc.env r v s uc.mode).1 = .ok
    · have hspc : (X86.reg_write ext uc.env r v s uc.mode).2.2 = false := by
        cases h : (X86.reg_write ext uc.env r v s uc.mode).2.2
        · rfl
        · exfalso
          apply herr
          simp [X86.x86_reg_write, X86.reg_write_batch, hr, h, X86.break_translation_loop]
      simp [X86.x86_reg_write, X86.reg_write_batch, hr, hspc]
    · simp [X86.x86_reg_write, X86.reg_write_batch, hr]
  · intro cenv cmode
    rfl
  · intro suc sv ss
    refine ⟨?_, ?_, ?_⟩
    · intro hok
      by_cases hs4 : sizeOk ss 4
      · simp [SPARC.sparc_reg_write, SPARC.reg_write, hs4, SPARC.break_translation_loop]
      · exfalso
        simp [SPARC.sparc_reg_write, SPARC.reg_write, hs4] at hok
    · intro sr hsr
      cases sr <;> simp_all <;>
        by_cases hs4 : sizeOk ss 4 <;>
        simp [SPARC.sparc_reg_write, SPARC.reg_write, hs4]
    · intro senv
      by_cases hs4 : sizeOk ss 4 <;>
        simp [SPARC.sparc_context_reg_write, SPARC.reg_write, hs4]

/-- Witness for C3: a successful EIP write on the live all-zero 32-bit
CPU raises exactly one abort request. -/
theorem pc_write_raises_single_abort_request_witness :
    X86.isPCreg X86.UcX86Reg.EIP ∧
    (X86.x86_reg_write X86.ext0 X86.uc0 [(.EIP, .i 4096, none)]).1 = .ok ∧
    (X86.x86_reg_write X86.ext0 X86.uc0 [(.EIP, .i 4096, none)]).2.abort_requests =
      X86.uc0.abort_requests + 1 :=
  ⟨Or.inl rfl, by decide,
    (pc_write_raises_single_abort_request X86.ext0 X86.uc0 .EIP (.i 4096) none).1
      (Or.inl rfl) (by decide)⟩

/-- C4: the claim states that in 16-bit mode set-PC inverts the
segment-base transform of get-PC for every CS selector and address.
The code casts the selector to a signed 16-bit integer in set-PC
(sign-extending selectors at or above 0x8000) while get-PC uses it
unsigned, so with CS selector 0x8000 a set-PC of address 0 reads back as
0x100000, not 0. -/
theorem mode16_set_pc_get_pc_roundtrip_bug :
    (X86.envC4.segs X86.R_CS).selector = 0x8000 ∧
    X86.x86_get_pc (X86.x86_set_pc X86.envC4 .m16 0) .m16 = 0x100000 :=
  ⟨rfl, by decide⟩

set_option maxHeartbeats 4000000 in
/-- C5: for every narrow general-purpose sub-register view (low byte,
high byte, low word, low dword) in every mode, a write succeeds, changes
only the targeted bytes of the wider backing slot (the untargeted bits
keep their prior values), and leaves every other general-register slot
unchanged. -/
theorem narrow_subregister_write_preserves_other_bytes :
    ∀ (k : Fin X86.gprNarrowViews.length) (ext : X86.Externals) (env : X86.CPUX86State)
      (v : Nat),
    X86.reg_write ext env (X86.gprNarrowViews.get k).reg (.i v) none
        (X86.gprNarrowViews.get k).mode =
      (.ok, X86.setReg env (X86.gprNarrowViews.get k).slot
        (X86.applyView (X86.gprNarrowViews.get k).kind
          (env.regs (X86.gprNarrowViews.get k).slot) v), false) ∧
    X86.viewFrame (X86.gprNarrowViews.get k).kind (env.regs (X86.gprNarrowViews.get k).slot) v
      ((X86.reg_write ext env (X86.gprNarrowViews.get k).reg (.i v) none
          (X86.gprNarrowViews.get k).mode).2.1.regs (X86.gprNarrowViews.get k).slot) ∧
    ∀ j, j ≠ (X86.gprNarrowViews.get k).slot →
      (X86.reg_write ext env (X86.gprNarrowViews.get k).reg (.i v) none
          (X86.gprNarrowViews.get k).mode).2.1.regs j = env.regs j := by
  intro k
  fin_cases k <;>
    exact fun ext env v =>
      ⟨rfl, X86.viewFrame_applyView _ _ _, fun j hj => Function.update_noteq hj _ _⟩

/-- Witness for C5: writing the low byte of the accumulator in 32-bit
mode (view entry 18) on the all-zero state. -/
theorem narrow_subregister_write_preserves_other_bytes_witness :
    X86.reg_write X86.ext0 X86.env0 .AL (.i 171) none .m32 =
      (.ok, X86.setReg X86.env0 X86.R_EAX
        (X86.applyView .byteL (X86.env0.regs X86.R_EAX) 171), false) ∧
    X86.viewFrame .byteL (X86.env0.regs X86.R_EAX) 171
      ((X86.reg_write X86.ext0 X86.env0 .AL (.i 171) none .m32).2.1.regs X86.R_EAX) ∧
    ((1 : Nat) ≠ X86.R_EAX ∧
     (X86.reg_write X86.ext0 X86.env0 .AL (.i 171) none .m32).2.1.regs 1 =
       X86.env0.regs 1) :=
  ⟨(narrow_subregister_write_preserves_other_bytes ⟨18, by decide⟩ X86.ext0 X86.env0 171).1,
   (narrow_subregister_write_preserves_other_bytes ⟨18, by decide⟩ X86.ext0 X86.env0 171).2.1,
   by decide,
   (narrow_subregister_write_preserves_other_bytes ⟨18, by decide⟩ X86.ext0 X86.env0 171).2.2
     1 (by decide)⟩

/-- C6 counterexample: the claim states that every general-purpose
segment selector write in every mode runs the legality pre-check before
mutation.  In 64-bit mode a CS selector write never consults the check:
with a pre-check that rejects every selector, the write still succeeds
and the stored selector changes from 0 to 1234. -/
theorem seg_write_mode64_skips_precheck :
    (X86.reg_write X86.extF X86.env0 .CS (.i 1234) none .m64).1 = .ok ∧
    ((X86.reg_write X86.extF X86.env0 .CS (.i 1234) none .m64).2.1.segs X86.R_CS).selector =
      1234 ∧
    (X86.env0.segs X86.R_CS).selector = 0 :=
  ⟨rfl, rfl, rfl⟩

set_option maxHeartbeats 4000000 in
/-- C6 (amended): on the mode/segment pairs that are validated — all six
general-purpose segments in 32-bit mode, CS in 16-bit mode, FS and GS in
64-bit mode — a selector write whose legality pre-check fails returns
the permission error and leaves the whole state (selector, base, limit
and flags included) completely unchanged. -/
theorem seg_selector_precheck_failure_leaves_register :
    ∀ p ∈ X86.segCheckedPairs, ∀ (ext : X86.Externals) (env : X86.CPUX86State)
      (value : X86.RegVal) (size : Option Nat),
      sizeOk size 2 = true →
      ext.segCheck p.2.2 (value.vI % X86.U16) = false →
      X86.reg_write ext env p.2.1 value size p.1 = (.exception, env, false) := by
  intro p hp
  fin_cases hp <;> intro ext env value size hsz hchk <;>
    simp [X86.reg_write, X86.reg_write_common, X86.reg_write_16, X86.reg_write_32,
      X86.reg_write_64, hsz, hchk]

/-- Witness for C6: a rejected CS selector write in 32-bit mode fails
with the permission error and leaves the state unchanged. -/
theorem seg_selector_precheck_failure_leaves_register_witness :
    sizeOk none 2 = true ∧
    X86.extF.segCheck X86.R_CS ((X86.RegVal.i 1234).vI % X86.U16) = false ∧
    X86.reg_write X86.extF X86.env0 .CS (.i 1234) none .m32 =
      (.exception, X86.env0, false) :=
  ⟨rfl, rfl,
    seg_selector_precheck_failure_leaves_register (.m32, .CS, X86.R_CS)
      (List.Mem.tail _ (List.Mem.head _)) X86.extF X86.env0 (.i 1234) none rfl rfl⟩

/-- C7 counterexample: the claim classifies every slot that is not
empty, not all-zero and not at the maximum biased exponent as valid.
On a state whose physical slot 0 is a denormal (empty bit unset,
exponent 0, mantissa 1) the tag-word read reports 65534 (slot 0 tagged
2, special), while the classification written by the claim predicts
65532 (slot 0 tagged 0, valid). -/
theorem fptag_claim_misclassifies_denormal :
    (X86.reg_read X86.ext0 X86.envC7 .FPTAG (.i 0) (some 2) .m32).2.2 =
      some (.i 65534) ∧
    X86.fptagClaimWord X86.envC7 = 65532 ∧
    X86.envC7.fptags 0 = false ∧
    (X86.envC7.fpregs 0).upper &&& 0x7fff = 0 ∧
    (X86.envC7.fpregs 0).mant = 1 := by
  refine ⟨by decide, by decide, by decide, by decide, by decide⟩

/-- C7 (amended): the tag-word read synthesizes each of the 8 two-bit
tags from the physical register contents rather than a stored field —
empty when the empty bit is set; zero when the empty bit is unset and
exponent and mantissa are both zero; special when the exponent is zero
(with nonzero mantissa), equals the maximum biased exponent, or the
explicit bit of the mantissa is unset; valid for all remaining slots. -/
theorem fptag_read_synthesized_classification (ext : X86.Externals)
    (env : X86.CPUX86State) (vin : X86.RegVal) (i : Nat) (h : i < 8) :
    (X86.reg_read ext env .FPTAG vin (some 2) .m32).2.2 =
      some (.i (X86.x86_fptag env)) ∧
    X86.x86_fptag env / 4 ^ i % 4 =
      X86.fptag_spec_tag (env.fptags i) ((env.fpregs i).upper &&& 0x7fff)
        (env.fpregs i).mant :=
  ⟨rfl, X86.x86_fptag_extract env i h⟩

/-- Witness for C7: slot 0 of the denormal fixture. -/
theorem fptag_read_synthesized_classification_witness :
    (0 : Nat) < 8 ∧
    ((X86.reg_read X86.ext0 X86.envC7 .FPTAG (.i 0) (some 2) .m32).2.2 =
       some (.i (X86.x86_fptag X86.envC7)) ∧
     X86.x86_fptag X86.envC7 / 4 ^ 0 % 4 =
       X86.fptag_spec_tag (X86.envC7.fptags 0) ((X86.envC7.fpregs 0).upper &&& 0x7fff)
         (X86.envC7.fpregs 0).mant) :=
  ⟨by decide,
    fptag_read_synthesized_classification X86.ext0 X86.envC7 (.i 0) 0 (by decide)⟩

/-- C8: MSR access is observably side-effect-free on the three borrowed
general registers: after an MSR read or write with any external rdmsr or
wrmsr micro-operation, from any starting state and for any index and
value, the accumulator (EAX), counter (ECX) and data (EDX) registers
hold exactly their pre-call values. -/
theorem msr_access_restores_borrowed_registers (ext : X86.Externals)
    (env : X86.CPUX86State) (rid v : Nat) :
    ((X86.x86_msr_read ext env rid).1.regs X86.R_EAX = env.regs X86.R_EAX ∧
     (X86.x86_msr_read ext env rid).1.regs X86.R_ECX = env.regs X86.R_ECX ∧
     (X86.x86_msr_read ext env rid).1.regs X86.R_EDX = env.regs X86.R_EDX) ∧
    ((X86.x86_msr_write ext env rid v).regs X86.R_EAX = env.regs X86.R_EAX ∧
     (X86.x86_msr_write ext env rid v).regs X86.R_ECX = env.regs X86.R_ECX ∧
     (X86.x86_msr_write ext env rid v).regs X86.R_EDX = env.regs X86.R_EDX) := by
  unfold X86.x86_msr_read X86.x86_msr_write
  refine ⟨⟨?_, ?_, ?_⟩, ⟨?_, ?_, ?_⟩⟩ <;>
    simp [Function.update, X86.R_EAX, X86.R_ECX, X86.R_EDX]

/-- C9 counterexample: the claim states that reset zeroes every
floating-point register.  The reset entry point never touches the
80-bit floating point data registers: starting from a state whose
physical slot 0 holds mantissa 7, after a 16-bit reset slot 0 still
holds mantissa 7. -/
theorem reset_preserves_fp_data_registers :
    (X86.x86_reg_reset X86.envC9 .m16).fpregs 0 = ⟨7, 0⟩ ∧
    (X86.x86_reg_reset X86.envC9 .m16).fpregs 0 ≠ ⟨0, 0⟩ :=
  ⟨rfl, by decide⟩

/-- C9 (amended): reset zeroes every general, segment and control
register, the flags, the floating point status, control and tag state
and the vector registers (the 80-bit floating point data registers are
left unchanged), and then re-establishes the mode-specific invariants:
in 16-bit mode every segment base is 0 and every segment limit is the
maximum 16-bit value; in 64-bit mode the extended-feature (long mode)
EFER bits are set.  The SPARC reset zeroes the globals, window, floating
point registers and both program counters. -/
theorem reset_zeroes_and_reestablishes_mode_invariants (env : X86.CPUX86State)
    (senv : SPARC.CPUSPARCState) :
    ((∀ i, (X86.x86_reg_reset env .m16).regs i = 0) ∧
     (X86.x86_reg_reset env .m16).eip = 0 ∧
     (X86.x86_reg_reset env .m16).eflags = 0 ∧
     (∀ i, (X86.x86_reg_reset env .m16).cr i = 0) ∧
     (∀ i, (X86.x86_reg_reset env .m16).fptags i = false) ∧
     (X86.x86_reg_reset env .m16).fpstt = 0 ∧
     (X86.x86_reg_reset env .m16).fpus = 0 ∧
     (X86.x86_reg_reset env .m16).fpuc = 0 ∧
     (∀ i, (X86.x86_reg_reset env .m16).xmm_regs i = (0, 0)) ∧
     (X86.x86_reg_reset env .m16).fpregs = env.fpregs) ∧
    (((X86.x86_reg_reset env .m16).segs X86.R_ES).base = 0 ∧
     ((X86.x86_reg_reset env .m16).segs X86.R_ES).limit = 0xffff ∧
     ((X86.x86_reg_reset env .m16).segs X86.R_ES).selector = 0 ∧
     ((X86.x86_reg_reset env .m16).segs X86.R_CS).base = 0 ∧
     ((X86.x86_reg_reset env .m16).segs X86.R_CS).limit = 0xffff ∧
     ((X86.x86_reg_reset env .m16).segs X86.R_CS).selector = 0 ∧
     ((X86.x86_reg_reset env .m16).segs X86.R_SS).base = 0 ∧
     ((X86.x86_reg_reset env .m16).segs X86.R_SS).limit = 0xffff ∧
     ((X86.x86_reg_reset env .m16).segs X86.R_SS).selector = 0 ∧
     ((X86.x86_reg_reset env .m16).segs X86.R_DS).base = 0 ∧
     ((X86.x86_reg_reset env .m16).segs X86.R_DS).limit = 0xffff ∧
     ((X86.x86_reg_reset env .m16).segs X86.R_DS).selector = 0 ∧
     ((X86.x86_reg_reset env .m16).segs X86.R_FS).base = 0 ∧
     ((X86.x86_reg_reset env .m16).segs X86.R_FS).limit = 0xffff ∧
     ((X86.x86_reg_reset env .m16).segs X86.R_FS).selector = 0 ∧
     ((X86.x86_reg_reset env .m16).segs X86.R_GS).base = 0 ∧
     ((X86.x86_reg_reset env .m16).segs X86.R_GS).limit = 0xffff ∧
     ((X86.x86_reg_reset env .m16).segs X86.R_GS).selector = 0) ∧
    ((∀ i, (X86.x86_reg_reset env .m64).regs i = 0) ∧
     (∀ s, (X86.x86_reg_reset env .m64).segs s = ⟨0, 0, 0, 0⟩) ∧
     (X86.x86_reg_reset env .m64).efer = X86.MSR_EFER_LMA ||| X86.MSR_EFER_LME ∧
     (X86.x86_reg_reset env .m64).cr 0 = X86.CR0_PE_MASK ∧
     (X86.x86_reg_reset env .m64).cr 1 = 0 ∧
     (X86.x86_reg_reset env .m64).cr 2 = 0 ∧
     (X86.x86_reg_reset env .m64).cr 3 = 0 ∧
     (X86.x86_reg_reset env .m64).cr 4 = 0 ∧
     (∀ i, (X86.x86_reg_reset env .m64).fptags i = false) ∧
     (X86.x86_reg_reset env .m64).fpregs = env.fpregs) ∧
    ((∀ i, (SPARC.sparc_reg_reset senv).gregs i = 0) ∧
     (∀ i, (SPARC.sparc_reg_reset senv).regwptr i = 0) ∧
     (∀ i, (SPARC.sparc_reg_reset senv).fpr i = 0) ∧
     (SPARC.sparc_reg_reset senv).pc = 0 ∧
     (SPARC.sparc_reg_reset senv).npc = 0) := by
  refine ⟨⟨fun i => rfl, rfl, rfl, ?_, fun i => rfl, rfl, rfl, rfl, fun i => rfl, rfl⟩,
    ⟨rfl, rfl, rfl, rfl, rfl, rfl, rfl, rfl, rfl, rfl, rfl, rfl, rfl, rfl, rfl, rfl, rfl, rfl⟩,
    ⟨fun i => rfl, fun s => rfl, Nat.zero_or _, rfl, rfl, rfl, rfl, rfl, fun i => rfl, rfl⟩,
    ⟨fun i => rfl, fun i => rfl, fun i => rfl, rfl, rfl⟩⟩
  · intro i
    simp [X86.x86_reg_reset, X86.cpu_load_eflags, X86.cpu_x86_load_seg_cache,
      X86.load_seg_16_helper, Function.update_apply]

/-- C10: on the SPARC target, every successful write to the program
counter — through the register-write accessor or through the set-PC
operation — also sets the next program counter to the written value plus
4 (32-bit arithmetic), so after any PC write npc = pc + 4 holds modulo
2^32. -/
theorem sparc_pc_write_establishes_npc_invariant (env : SPARC.CPUSPARCState) (v : Nat)
    (s : Option Nat) (h : (SPARC.reg_write env .PC v s).1 = .ok) :
    ((SPARC.reg_write env .PC v s).2.npc =
        ((SPARC.reg_write env .PC v s).2.pc + 4) % 2 ^ 32 ∧
     (SPARC.reg_write env .PC v s).2.pc = v % 2 ^ 32) ∧
    ∀ (env2 : SPARC.CPUSPARCState) (a : Nat),
      (SPARC.sparc_set_pc env2 a).npc = ((SPARC.sparc_set_pc env2 a).pc + 4) % 2 ^ 32 := by
  constructor
  · by_cases hs : sizeOk s 4
    · simp [SPARC.reg_write, hs, SPARC.U32]
    · simp [SPARC.reg_write, hs] at h
  · intro env2 a
    simp [SPARC.sparc_set_pc, SPARC.U32]

/-- Witness for C10: writing PC value 4092 with the correct size on the
all-zero SPARC state. -/
theorem sparc_pc_write_establishes_npc_invariant_witness :
    (SPARC.reg_write SPARC.senv0 .PC 4092 (some 4)).1 = .ok ∧
    (((SPARC.reg_write SPARC.senv0 .PC 4092 (some 4)).2.npc =
        ((SPARC.reg_write SPARC.senv0 .PC 4092 (some 4)).2.pc + 4) % 2 ^ 32 ∧
      (SPARC.reg_write SPARC.senv0 .PC 4092 (some 4)).2.pc = 4092 % 2 ^ 32) ∧
     ∀ (env2 : SPARC.CPUSPARCState) (a : Nat),
       (SPARC.sparc_set_pc env2 a).npc = ((SPARC.sparc_set_pc env2 a).pc + 4) % 2 ^ 32) :=
  ⟨by decide,
    sparc_pc_write_establishes_npc_invariant SPARC.senv0 4092 (some 4) (by decide)⟩
